import Mathlib

/-!
# Instruction catalog and decoded-instruction records of the RISC-V simulator

A shallow embedding of `InstInfo.cpp` (the instruction catalog `InstInfoTable`
with its lookups by id and by name) and of the first-match decode rule the
specification gives for it.  Machine integers are natural numbers reduced
modulo `2^32`; lookups that would be undefined behaviour or throw in C++
return `none`.
-/

namespace WdRiscv

/-- Truncation of a natural number to an unsigned 32-bit value (`uint32_t`). -/
def u32 (n : Nat) : Nat := n % 4294967296

/-- Instruction identifiers: the enumerators of `InstId` that `setupInstVec`
names, one per catalog row.  The header declaring the enumeration is not among
the sources, so the lookups take the conversion `size_t(id)` as a parameter;
`InstId.toSize` is that conversion for the enumeration as it is listed here. -/
inductive InstId where
  | illegal | lui | auipc | jal | jalr | beq | bne | blt | bge | bltu | bgeu
  | lb | lh | lw | lbu | lhu | sb | sh | sw | addi | slti | sltiu | xori | ori
  | andi | slli | srli | srai | add | sub | sll | slt | sltu | xor_ | srl
  | sra | or_ | and_ | fence | fencei | ecall | ebreak | csrrw | csrrs | csrrc
  | csrrwi | csrrsi | csrrci | lwu | ld | sd | addiw | slliw | srliw | sraiw
  | addw | subw | sllw | srlw | sraw | mul | mulh | mulhsu | mulhu | div
  | divu | rem | remu | mulw | divw | divuw | remw | remuw | lr_w | sc_w
  | amoswap_w | amoadd_w | amoxor_w | amoand_w | amoor_w | amomin_w | amomax_w
  | amominu_w | amomaxu_w | lr_d | sc_d | amoswap_d | amoadd_d | amoxor_d
  | amoand_d | amoor_d | amomin_d | amomax_d | amominu_d | amomaxu_d | flw
  | fsw | fmadd_s | fmsub_s | fnmsub_s | fnmadd_s | fadd_s | fsub_s | fmul_s
  | fdiv_s | fsqrt_s | fsgnj_s | fsgnjn_s | fsgnjx_s | fmin_s | fmax_s
  | fcvt_w_s | fcvt_wu_s | fmv_x_w | feq_s | flt_s | fle_s | fclass_s
  | fcvt_s_w | fcvt_s_wu | fmv_w_x | fcvt_l_s | fcvt_lu_s | fcvt_s_l
  | fcvt_s_lu | fld | fsd | fmadd_d | fmsub_d | fnmsub_d | fnmadd_d | fadd_d
  | fsub_d | fmul_d | fdiv_d | fsqrt_d | fsgnj_d | fsgnjn_d | fsgnjx_d
  | fmin_d | fmax_d | fcvt_s_d | fcvt_d_s | feq_d | flt_d | fle_d | fclass_d
  | fcvt_w_d | fcvt_wu_d | fcvt_d_w | fcvt_d_wu | fcvt_l_d | fcvt_lu_d
  | fmv_x_d | fcvt_d_l | fcvt_d_lu | fmv_d_x | mret | uret | sret | wfi
  | c_addi4spn | c_fld | c_lq | c_lw | c_flw | c_ld | c_fsd | c_sq | c_sw
  | c_fsw | c_sd | c_addi | c_jal | c_li | c_addi16sp | c_lui | c_srli
  | c_srli64 | c_srai | c_srai64 | c_andi | c_sub | c_xor | c_or | c_and
  | c_subw | c_addw | c_j | c_beqz | c_bnez | c_slli | c_slli64 | c_fldsp
  | c_lwsp | c_flwsp | c_jr | c_ebreak | c_jalr | c_add | c_fsdsp | c_swsp
  | c_fswsp
deriving DecidableEq, Repr

/-- Coarse classification of an instruction (`InstType`), with the enumerators
that `setupInstVec` uses. -/
inductive InstType where
  | Int | Branch | Load | Store | Multiply | Divide
deriving DecidableEq, Repr

/-- Kind of an operand (`OperandType`). -/
inductive OperandType where
  | None | IntReg | FpReg | CsReg | Imm
deriving DecidableEq, Repr

/-- Access mode of an operand (`OperandMode`). -/
inductive OperandMode where
  | None | Read | Write | ReadWrite
deriving DecidableEq, Repr

/-- One catalog row (`class InstInfo`): the private data members. -/
structure InstInfo where
  name_ : String
  id_ : InstId
  code_ : Nat
  codeMask_ : Nat
  type_ : InstType
  op0Mask_ : Nat
  op1Mask_ : Nat
  op2Mask_ : Nat
  op0Type_ : OperandType
  op1Type_ : OperandType
  op2Type_ : OperandType
  op0Mode_ : OperandMode
  op1Mode_ : OperandMode
  op2Mode_ : OperandMode
  opCount_ : Nat
deriving DecidableEq, Repr

namespace InstInfo

/-- The constructor `InstInfo::InstInfo` with all fourteen arguments: it stores
its arguments and counts the operands whose type is not `None`. -/
def new (name : String) (id : InstId) (code mask : Nat) (type : InstType)
    (op0Type : OperandType) (op0Mode : OperandMode) (op0Mask : Nat)
    (op1Type : OperandType) (op1Mode : OperandMode) (op1Mask : Nat)
    (op2Type : OperandType) (op2Mode : OperandMode) (op2Mask : Nat) : InstInfo :=
  let count := 0
  let count := if op0Type ≠ OperandType.None then count + 1 else count
  let count := if op1Type ≠ OperandType.None then count + 1 else count
  let count := if op2Type ≠ OperandType.None then count + 1 else count
  { name_ := name, id_ := id, code_ := u32 code, codeMask_ := u32 mask,
    type_ := type,
    op0Mask_ := u32 op0Mask, op1Mask_ := u32 op1Mask, op2Mask_ := u32 op2Mask,
    op0Type_ := op0Type, op1Type_ := op1Type, op2Type_ := op2Type,
    op0Mode_ := op0Mode, op1Mode_ := op1Mode, op2Mode_ := op2Mode,
    opCount_ := count }

/-- Modelled from the spec: `InstInfo.hpp`, which declares the default
arguments of the constructor, is not among the sources.  A row written with a
type and two operand descriptors leaves the third descriptor unused: type
`None`, mode `None`, field mask 0 (spec §3: an unused descriptor has type
`None`). -/
def new11 (name : String) (id : InstId) (code mask : Nat) (type : InstType)
    (op0Type : OperandType) (op0Mode : OperandMode) (op0Mask : Nat)
    (op1Type : OperandType) (op1Mode : OperandMode) (op1Mask : Nat) : InstInfo :=
  new name id code mask type op0Type op0Mode op0Mask op1Type op1Mode op1Mask
    OperandType.None OperandMode.None 0

/-- Modelled from the spec: `InstInfo.hpp`, which declares the default
arguments of the constructor, is not among the sources.  A row written with
only name, id, code and mask has classification `Int` and three unused operand
descriptors (type `None`, mode `None`, field mask 0). -/
def new4 (name : String) (id : InstId) (code mask : Nat) : InstInfo :=
  new name id code mask InstType.Int
    OperandType.None OperandMode.None 0
    OperandType.None OperandMode.None 0
    OperandType.None OperandMode.None 0

/-- Accessor `InstInfo::name`. -/
def name (e : InstInfo) : String := e.name_

/-- Accessor `InstInfo::instId`. -/
def instId (e : InstInfo) : InstId := e.id_

/-- Accessor `InstInfo::code`. -/
def code (e : InstInfo) : Nat := e.code_

/-- Accessor `InstInfo::codeMask`. -/
def codeMask (e : InstInfo) : Nat := e.codeMask_

end InstInfo

/-! ## The table built by `InstInfoTable::setupInstVec` -/

/-- Local `rdMask = 0x1f << 7`. -/
def rdMask : Nat := u32 (0x1f <<< 7)

/-- Local `rs1Mask = 0x1f << 15`. -/
def rs1Mask : Nat := u32 (0x1f <<< 15)

/-- Local `rs2Mask = 0x1f << 20`. -/
def rs2Mask : Nat := u32 (0x1f <<< 20)

/-- Local `immTop20 = 0xffff << 12`. -/
def immTop20 : Nat := u32 (0xffff <<< 12)

/-- Local `immTop12 = 0xfff << 20`. -/
def immTop12 : Nat := u32 (0xfff <<< 20)

/-- Local `immBeq = 0xfe000f80`. -/
def immBeq : Nat := 0xfe000f80

/-- Local `shamtMask = 0x01f00000`. -/
def shamtMask : Nat := 0x01f00000

/-- Local `low7Mask = 0x7f`: the lowest 7 bits (opcode). -/
def low7Mask : Nat := 0x7f

/-- Local `funct3Low7Mask = 0x707f`: funct3 and the lowest 7 bits. -/
def funct3Low7Mask : Nat := 0x707f

/-- Local `top7Funct3Low7Mask = 0xfe00707f`: top 7 bits, funct3 and the lowest
7 bits. -/
def top7Funct3Low7Mask : Nat := 0xfe00707f

/-- The value that `InstInfoTable::setupInstVec` assigns to `instVec_`, row by
row in declaration order. -/
def setupInstVec : List InstInfo :=
  [
    InstInfo.new4 "illegal" InstId.illegal 0xffffffff 0xffffffff,
    InstInfo.new11 "lui" InstId.lui 0x37 low7Mask
      InstType.Int
      OperandType.IntReg OperandMode.Write rdMask
      OperandType.Imm OperandMode.None immTop20,
    InstInfo.new11 "auipc" InstId.auipc 0x17 low7Mask
      InstType.Int
      OperandType.IntReg OperandMode.Write rdMask
      OperandType.Imm OperandMode.None immTop20,
    InstInfo.new11 "jal" InstId.jal 0x6f low7Mask
      InstType.Branch
      OperandType.IntReg OperandMode.Write rdMask
      OperandType.IntReg OperandMode.None immTop20,
    InstInfo.new "jalr" InstId.jalr 0x0067 funct3Low7Mask
      InstType.Branch
      OperandType.IntReg OperandMode.Write rdMask
      OperandType.IntReg OperandMode.Read rs1Mask
      OperandType.Imm OperandMode.None immTop12,
    InstInfo.new "beq" InstId.beq 0x0063 funct3Low7Mask
      InstType.Branch
      OperandType.IntReg OperandMode.Read rs1Mask
      OperandType.IntReg OperandMode.Read rs2Mask
      OperandType.Imm OperandMode.None immBeq,
    InstInfo.new "bne" InstId.bne 0x1063 funct3Low7Mask
      InstType.Branch
      OperandType.IntReg OperandMode.Read rs1Mask
      OperandType.IntReg OperandMode.Read rs2Mask
      OperandType.Imm OperandMode.None immBeq,
    InstInfo.new "blt" InstId.blt 0x4063 funct3Low7Mask
      InstType.Branch
      OperandType.IntReg OperandMode.Read rs1Mask
      OperandType.IntReg OperandMode.Read rs2Mask
      OperandType.Imm OperandMode.None immBeq,
    InstInfo.new "bge" InstId.bge 0x5063 funct3Low7Mask
      InstType.Branch
      OperandType.IntReg OperandMode.Read rs1Mask
      OperandType.IntReg OperandMode.Read rs2Mask
      OperandType.Imm OperandMode.None immBeq,
    InstInfo.new "bltu" InstId.bltu 0x6063 funct3Low7Mask
      InstType.Branch
      OperandType.IntReg OperandMode.Read rs1Mask
      OperandType.IntReg OperandMode.Read rs2Mask
      OperandType.Imm OperandMode.None immBeq,
    InstInfo.new "bgeu" InstId.bgeu 0x7063 funct3Low7Mask
      InstType.Branch
      OperandType.IntReg OperandMode.Read rs1Mask
      OperandType.IntReg OperandMode.Read rs2Mask
      OperandType.Imm OperandMode.None immBeq,
    InstInfo.new "lb" InstId.lb 0x0003 funct3Low7Mask
      InstType.Load
      OperandType.IntReg OperandMode.Write rdMask
      OperandType.IntReg OperandMode.Read rs1Mask
      OperandType.Imm OperandMode.None immTop12,
    InstInfo.new "lh" InstId.lh 0x1003 funct3Low7Mask
      InstType.Load
      OperandType.IntReg OperandMode.Write rdMask
      OperandType.IntReg OperandMode.Read rs1Mask
      OperandType.Imm OperandMode.None immTop12,
    InstInfo.new "lw" InstId.lw 0x2003 funct3Low7Mask
      InstType.Load
      OperandType.IntReg OperandMode.Write rdMask
      OperandType.IntReg OperandMode.Read rs1Mask
      OperandType.Imm OperandMode.None immTop12,
    InstInfo.new "lbu" InstId.lbu 0x4003 funct3Low7Mask
      InstType.Load
      OperandType.IntReg OperandMode.Write rdMask
      OperandType.IntReg OperandMode.Read rs1Mask
      OperandType.Imm OperandMode.None immTop12,
    InstInfo.new "lhu" InstId.lhu 0x5003 funct3Low7Mask
      InstType.Load
      OperandType.IntReg OperandMode.Write rdMask
      OperandType.IntReg OperandMode.Read rs1Mask
      OperandType.Imm OperandMode.None immTop12,
    InstInfo.new "sb" InstId.sb 0x0023 funct3Low7Mask
      InstType.Store
      OperandType.IntReg OperandMode.Read rs1Mask
      OperandType.IntReg OperandMode.Read rs2Mask
      OperandType.Imm OperandMode.None immBeq,
    InstInfo.new "sh" InstId.sh 0x1023 funct3Low7Mask
      InstType.Store
      OperandType.IntReg OperandMode.Read rs1Mask
      OperandType.IntReg OperandMode.Read rs2Mask
      OperandType.Imm OperandMode.None immBeq,
    InstInfo.new "sw" InstId.sw 0x2023 funct3Low7Mask
      InstType.Store
      OperandType.IntReg OperandMode.Read rs1Mask
      OperandType.IntReg OperandMode.Read rs2Mask
      OperandType.Imm OperandMode.None immBeq,
    InstInfo.new "addi" InstId.addi 0x0013 funct3Low7Mask
      InstType.Int
      OperandType.IntReg OperandMode.Write rdMask
      OperandType.IntReg OperandMode.Read rs1Mask
      OperandType.Imm OperandMode.None immTop12,
    InstInfo.new "slti" InstId.slti 0x2013 funct3Low7Mask
      InstType.Int
      OperandType.IntReg OperandMode.Write rdMask
      OperandType.IntReg OperandMode.Read rs1Mask
      OperandType.Imm OperandMode.None immTop12,
    InstInfo.new "sltiu" InstId.sltiu 0x3013 funct3Low7Mask
      InstType.Int
      OperandType.IntReg OperandMode.Write rdMask
      OperandType.IntReg OperandMode.Read rs1Mask
      OperandType.Imm OperandMode.None immTop12,
    InstInfo.new "xori" InstId.xori 0x4013 funct3Low7Mask
      InstType.Int
      OperandType.IntReg OperandMode.Write rdMask
      OperandType.IntReg OperandMode.Read rs1Mask
      OperandType.Imm OperandMode.None immTop12,
    InstInfo.new "ori" InstId.ori 0x6013 funct3Low7Mask
      InstType.Int
      OperandType.IntReg OperandMode.Write rdMask
      OperandType.IntReg OperandMode.Read rs1Mask
      OperandType.Imm OperandMode.None immTop12,
    InstInfo.new "andi" InstId.andi 0x7013 funct3Low7Mask
      InstType.Int
      OperandType.IntReg OperandMode.Write rdMask
      OperandType.IntReg OperandMode.Read rs1Mask
      OperandType.Imm OperandMode.None immTop12,
    InstInfo.new "slli" InstId.slli 0x1013 top7Funct3Low7Mask
      InstType.Int
      OperandType.IntReg OperandMode.Write rdMask
      OperandType.IntReg OperandMode.Read rs1Mask
      OperandType.Imm OperandMode.None shamtMask,
    InstInfo.new "srli" InstId.srli 0x5013 top7Funct3Low7Mask
      InstType.Int
      OperandType.IntReg OperandMode.Write rdMask
      OperandType.IntReg OperandMode.Read rs1Mask
      OperandType.Imm OperandMode.None shamtMask,
    InstInfo.new "srai" InstId.srai 0x40005013 top7Funct3Low7Mask
      InstType.Int
      OperandType.IntReg OperandMode.Write rdMask
      OperandType.IntReg OperandMode.Read rs1Mask
      OperandType.Imm OperandMode.None shamtMask,
    InstInfo.new "add" InstId.add 0x0033 top7Funct3Low7Mask
      InstType.Int
      OperandType.IntReg OperandMode.Write rdMask
      OperandType.IntReg OperandMode.Read rs1Mask
      OperandType.IntReg OperandMode.Read rs2Mask,
    InstInfo.new "sub" InstId.sub 0x40000033 top7Funct3Low7Mask
      InstType.Int
      OperandType.IntReg OperandMode.Write rdMask
      OperandType.IntReg OperandMode.Read rs1Mask
      OperandType.IntReg OperandMode.Read rs2Mask,
    InstInfo.new "sll" InstId.sll 0x1033 top7Funct3Low7Mask
      InstType.Int
      OperandType.IntReg OperandMode.Write rdMask
      OperandType.IntReg OperandMode.Read rs1Mask
      OperandType.IntReg OperandMode.Read rs2Mask,
    InstInfo.new "slt" InstId.slt 0x2033 top7Funct3Low7Mask
      InstType.Int
      OperandType.IntReg OperandMode.Write rdMask
      OperandType.IntReg OperandMode.Read rs1Mask
      OperandType.IntReg OperandMode.Read rs2Mask,
    InstInfo.new "sltu" InstId.sltu 0x3033 top7Funct3Low7Mask
      InstType.Int
      OperandType.IntReg OperandMode.Write rdMask
      OperandType.IntReg OperandMode.Read rs1Mask
      OperandType.IntReg OperandMode.Read rs2Mask,
    InstInfo.new "xor" InstId.xor_ 0x4033 top7Funct3Low7Mask
      InstType.Int
      OperandType.IntReg OperandMode.Write rdMask
      OperandType.IntReg OperandMode.Read rs1Mask
      OperandType.IntReg OperandMode.Read rs2Mask,
    InstInfo.new "srl" InstId.srl 0x5033 top7Funct3Low7Mask
      InstType.Int
      OperandType.IntReg OperandMode.Write rdMask
      OperandType.IntReg OperandMode.Read rs1Mask
      OperandType.IntReg OperandMode.Read rs2Mask,
    InstInfo.new "sra" InstId.sra 0x40001033 top7Funct3Low7Mask
      InstType.Int
      OperandType.IntReg OperandMode.Write rdMask
      OperandType.IntReg OperandMode.Read rs1Mask
      OperandType.IntReg OperandMode.Read rs2Mask,
    InstInfo.new "or" InstId.or_ 0x6033 top7Funct3Low7Mask
      InstType.Int
      OperandType.IntReg OperandMode.Write rdMask
      OperandType.IntReg OperandMode.Read rs1Mask
      OperandType.IntReg OperandMode.Read rs2Mask,
    InstInfo.new "and" InstId.and_ 0x7033 top7Funct3Low7Mask
      InstType.Int
      OperandType.IntReg OperandMode.Write rdMask
      OperandType.IntReg OperandMode.Read rs1Mask
      OperandType.IntReg OperandMode.Read rs2Mask,
    InstInfo.new11 "fence" InstId.fence 0x000f 0xf00fffff
      InstType.Int
      OperandType.Imm OperandMode.None 0x0f000000
      OperandType.Imm OperandMode.None 0x00f00000,
    InstInfo.new4 "fencei" InstId.fencei 0x100f 0xffffffff,
    InstInfo.new4 "ecall" InstId.ecall 0x00000073 0xffffffff,
    InstInfo.new4 "ebreak" InstId.ebreak 0x00100073 0xffffffff,
    InstInfo.new "csrrw" InstId.csrrw 0x1073 funct3Low7Mask
      InstType.Int
      OperandType.IntReg OperandMode.Write rdMask
      OperandType.IntReg OperandMode.Read rs1Mask
      OperandType.CsReg OperandMode.ReadWrite immTop12,
    InstInfo.new "csrrs" InstId.csrrs 0x2073 funct3Low7Mask
      InstType.Int
      OperandType.IntReg OperandMode.Write rdMask
      OperandType.IntReg OperandMode.Read rs1Mask
      OperandType.CsReg OperandMode.ReadWrite immTop12,
    InstInfo.new "csrrc" InstId.csrrc 0x3073 funct3Low7Mask
      InstType.Int
      OperandType.IntReg OperandMode.Write rdMask
      OperandType.IntReg OperandMode.Read rs1Mask
      OperandType.CsReg OperandMode.ReadWrite immTop12,
    InstInfo.new "csrrwi" InstId.csrrwi 0x5073 funct3Low7Mask
      InstType.Int
      OperandType.IntReg OperandMode.Write rdMask
      OperandType.Imm OperandMode.None rs1Mask
      OperandType.CsReg OperandMode.ReadWrite immTop12,
    InstInfo.new "csrrsi" InstId.csrrsi 0x6073 funct3Low7Mask
      InstType.Int
      OperandType.IntReg OperandMode.Write rdMask
      OperandType.Imm OperandMode.None rs1Mask
      OperandType.CsReg OperandMode.ReadWrite immTop12,
    InstInfo.new "csrrci" InstId.csrrci 0x7073 funct3Low7Mask
      InstType.Int
      OperandType.IntReg OperandMode.Write rdMask
      OperandType.Imm OperandMode.None rs1Mask
      OperandType.CsReg OperandMode.ReadWrite immTop12,
    InstInfo.new4 "lwu" InstId.lwu 0 0,
    InstInfo.new4 "ld" InstId.ld 0 0,
    InstInfo.new4 "sd" InstId.sd 0 0,
    InstInfo.new4 "addiw" InstId.addiw 0 0,
    InstInfo.new4 "slliw" InstId.slliw 0 0,
    InstInfo.new4 "srliw" InstId.srliw 0 0,
    InstInfo.new4 "sraiw" InstId.sraiw 0 0,
    InstInfo.new4 "addw" InstId.addw 0 0,
    InstInfo.new4 "subw" InstId.subw 0 0,
    InstInfo.new4 "sllw" InstId.sllw 0 0,
    InstInfo.new4 "srlw" InstId.srlw 0 0,
    InstInfo.new4 "sraw" InstId.sraw 0 0,
    InstInfo.new "mul" InstId.mul 0x02000033 top7Funct3Low7Mask
      InstType.Multiply
      OperandType.IntReg OperandMode.Write rdMask
      OperandType.IntReg OperandMode.Read rs1Mask
      OperandType.IntReg OperandMode.Read rs2Mask,
    InstInfo.new "mulh" InstId.mulh 0x02001033 top7Funct3Low7Mask
      InstType.Multiply
      OperandType.IntReg OperandMode.Write rdMask
      OperandType.IntReg OperandMode.Read rs1Mask
      OperandType.IntReg OperandMode.Read rs2Mask,
    InstInfo.new "mulhsu" InstId.mulhsu 0x02002033 top7Funct3Low7Mask
      InstType.Multiply
      OperandType.IntReg OperandMode.Write rdMask
      OperandType.IntReg OperandMode.Read rs1Mask
      OperandType.IntReg OperandMode.Read rs2Mask,
    InstInfo.new "mulhu" InstId.mulhu 0x02003033 top7Funct3Low7Mask
      InstType.Multiply
      OperandType.IntReg OperandMode.Write rdMask
      OperandType.IntReg OperandMode.Read rs1Mask
      OperandType.IntReg OperandMode.Read rs2Mask,
    InstInfo.new "div" InstId.div 0x02004033 top7Funct3Low7Mask
      InstType.Divide
      OperandType.IntReg OperandMode.Write rdMask
      OperandType.IntReg OperandMode.Read rs1Mask
      OperandType.IntReg OperandMode.Read rs2Mask,
    InstInfo.new "divu" InstId.divu 0x02005033 top7Funct3Low7Mask
      InstType.Divide
      OperandType.IntReg OperandMode.Write rdMask
      OperandType.IntReg OperandMode.Read rs1Mask
      OperandType.IntReg OperandMode.Read rs2Mask,
    InstInfo.new "rem" InstId.rem 0x02006033 top7Funct3Low7Mask
      InstType.Divide
      OperandType.IntReg OperandMode.Write rdMask
      OperandType.IntReg OperandMode.Read rs1Mask
      OperandType.IntReg OperandMode.Read rs2Mask,
    InstInfo.new "remu" InstId.remu 0x02007033 top7Funct3Low7Mask
      InstType.Divide
      OperandType.IntReg OperandMode.Write rdMask
      OperandType.IntReg OperandMode.Read rs1Mask
      OperandType.IntReg OperandMode.Read rs2Mask,
    InstInfo.new4 "mulw" InstId.mulw 0 0,
    InstInfo.new4 "divw" InstId.divw 0 0,
    InstInfo.new4 "divuw" InstId.divuw 0 0,
    InstInfo.new4 "remw" InstId.remw 0 0,
    InstInfo.new4 "remuw" InstId.remuw 0 0,
    InstInfo.new4 "lr_w" InstId.lr_w 0 0,
    InstInfo.new4 "sc_w" InstId.sc_w 0 0,
    InstInfo.new4 "amoswap_w" InstId.amoswap_w 0 0,
    InstInfo.new4 "amoadd_w" InstId.amoadd_w 0 0,
    InstInfo.new4 "amoxor_w" InstId.amoxor_w 0 0,
    InstInfo.new4 "amoand_w" InstId.amoand_w 0 0,
    InstInfo.new4 "amoor_w" InstId.amoor_w 0 0,
    InstInfo.new4 "amomin_w" InstId.amomin_w 0 0,
    InstInfo.new4 "amomax_w" InstId.amomax_w 0 0,
    InstInfo.new4 "amominu_w" InstId.amominu_w 0 0,
    InstInfo.new4 "amomaxu_w" InstId.amomaxu_w 0 0,
    InstInfo.new4 "lr_d" InstId.lr_d 0 0,
    InstInfo.new4 "sc_d" InstId.sc_d 0 0,
    InstInfo.new4 "amoswap_d" InstId.amoswap_d 0 0,
    InstInfo.new4 "amoadd_d" InstId.amoadd_d 0 0,
    InstInfo.new4 "amoxor_d" InstId.amoxor_d 0 0,
    InstInfo.new4 "amoand_d" InstId.amoand_d 0 0,
    InstInfo.new4 "amoor_d" InstId.amoor_d 0 0,
    InstInfo.new4 "amomin_d" InstId.amomin_d 0 0,
    InstInfo.new4 "amomax_d" InstId.amomax_d 0 0,
    InstInfo.new4 "amominu_d" InstId.amominu_d 0 0,
    InstInfo.new4 "amomaxu_d" InstId.amomaxu_d 0 0,
    InstInfo.new4 "flw" InstId.flw 0 0,
    InstInfo.new4 "fsw" InstId.fsw 0 0,
    InstInfo.new4 "fmadd_s" InstId.fmadd_s 0 0,
    InstInfo.new4 "fmsub_s" InstId.fmsub_s 0 0,
    InstInfo.new4 "fnmsub_s" InstId.fnmsub_s 0 0,
    InstInfo.new4 "fnmadd_s" InstId.fnmadd_s 0 0,
    InstInfo.new4 "fadd_s" InstId.fadd_s 0 0,
    InstInfo.new4 "fsub_s" InstId.fsub_s 0 0,
    InstInfo.new4 "fmul_s" InstId.fmul_s 0 0,
    InstInfo.new4 "fdiv_s" InstId.fdiv_s 0 0,
    InstInfo.new4 "fsqrt_s" InstId.fsqrt_s 0 0,
    InstInfo.new4 "fsgnj_s" InstId.fsgnj_s 0 0,
    InstInfo.new4 "fsgnjn_s" InstId.fsgnjn_s 0 0,
    InstInfo.new4 "fsgnjx_s" InstId.fsgnjx_s 0 0,
    InstInfo.new4 "fmin_s" InstId.fmin_s 0 0,
    InstInfo.new4 "fmax_s" InstId.fmax_s 0 0,
    InstInfo.new4 "fcvt_w_s" InstId.fcvt_w_s 0 0,
    InstInfo.new4 "fcvt_wu_s" InstId.fcvt_wu_s 0 0,
    InstInfo.new4 "fmv_x_w" InstId.fmv_x_w 0 0,
    InstInfo.new4 "feq_s" InstId.feq_s 0 0,
    InstInfo.new4 "flt_s" InstId.flt_s 0 0,
    InstInfo.new4 "fle_s" InstId.fle_s 0 0,
    InstInfo.new4 "fclass_s" InstId.fclass_s 0 0,
    InstInfo.new4 "fcvt_s_w" InstId.fcvt_s_w 0 0,
    InstInfo.new4 "fcvt_s_wu" InstId.fcvt_s_wu 0 0,
    InstInfo.new4 "fmv_w_x" InstId.fmv_w_x 0 0,
    InstInfo.new4 "fcvt_l_s" InstId.fcvt_l_s 0 0,
    InstInfo.new4 "fcvt_lu_s" InstId.fcvt_lu_s 0 0,
    InstInfo.new4 "fcvt_s_l" InstId.fcvt_s_l 0 0,
    InstInfo.new4 "fcvt_s_lu" InstId.fcvt_s_lu 0 0,
    InstInfo.new4 "fld" InstId.fld 0 0,
    InstInfo.new4 "fsd" InstId.fsd 0 0,
    InstInfo.new4 "fmadd_d" InstId.fmadd_d 0 0,
    InstInfo.new4 "fmsub_d" InstId.fmsub_d 0 0,
    InstInfo.new4 "fnmsub_d" InstId.fnmsub_d 0 0,
    InstInfo.new4 "fnmadd_d" InstId.fnmadd_d 0 0,
    InstInfo.new4 "fadd_d" InstId.fadd_d 0 0,
    InstInfo.new4 "fsub_d" InstId.fsub_d 0 0,
    InstInfo.new4 "fmul_d" InstId.fmul_d 0 0,
    InstInfo.new4 "fdiv_d" InstId.fdiv_d 0 0,
    InstInfo.new4 "fsqrt_d" InstId.fsqrt_d 0 0,
    InstInfo.new4 "fsgnj_d" InstId.fsgnj_d 0 0,
    InstInfo.new4 "fsgnjn_d" InstId.fsgnjn_d 0 0,
    InstInfo.new4 "fsgnjx_d" InstId.fsgnjx_d 0 0,
    InstInfo.new4 "fmin_d" InstId.fmin_d 0 0,
    InstInfo.new4 "fmax_d" InstId.fmax_d 0 0,
    InstInfo.new4 "fcvt_s_d" InstId.fcvt_s_d 0 0,
    InstInfo.new4 "fcvt_d_s" InstId.fcvt_d_s 0 0,
    InstInfo.new4 "feq_d" InstId.feq_d 0 0,
    InstInfo.new4 "flt_d" InstId.flt_d 0 0,
    InstInfo.new4 "fle_d" InstId.fle_d 0 0,
    InstInfo.new4 "fclass_d" InstId.fclass_d 0 0,
    InstInfo.new4 "fcvt_w_d" InstId.fcvt_w_d 0 0,
    InstInfo.new4 "fcvt_wu_d" InstId.fcvt_wu_d 0 0,
    InstInfo.new4 "fcvt_d_w" InstId.fcvt_d_w 0 0,
    InstInfo.new4 "fcvt_d_wu" InstId.fcvt_d_wu 0 0,
    InstInfo.new4 "fcvt_l_d" InstId.fcvt_l_d 0 0,
    InstInfo.new4 "fcvt_lu_d" InstId.fcvt_lu_d 0 0,
    InstInfo.new4 "fmv_x_d" InstId.fmv_x_d 0 0,
    InstInfo.new4 "fcvt_d_l" InstId.fcvt_d_l 0 0,
    InstInfo.new4 "fcvt_d_lu" InstId.fcvt_d_lu 0 0,
    InstInfo.new4 "fmv_d_x" InstId.fmv_d_x 0 0,
    InstInfo.new4 "mret" InstId.mret 0 0,
    InstInfo.new4 "uret" InstId.uret 0 0,
    InstInfo.new4 "sret" InstId.sret 0 0,
    InstInfo.new4 "wfi" InstId.wfi 0 0,
    InstInfo.new4 "c_addi4spn" InstId.c_addi4spn 0 0,
    InstInfo.new4 "c_fld" InstId.c_fld 0 0,
    InstInfo.new4 "c_lq" InstId.c_lq 0 0,
    InstInfo.new4 "c_lw" InstId.c_lw 0 0,
    InstInfo.new4 "c_flw" InstId.c_flw 0 0,
    InstInfo.new4 "c_ld" InstId.c_ld 0 0,
    InstInfo.new4 "c_fsd" InstId.c_fsd 0 0,
    InstInfo.new4 "c_sq" InstId.c_sq 0 0,
    InstInfo.new4 "c_sw" InstId.c_sw 0 0,
    InstInfo.new4 "c_fsw" InstId.c_fsw 0 0,
    InstInfo.new4 "c_sd" InstId.c_sd 0 0,
    InstInfo.new4 "c_addi" InstId.c_addi 0 0,
    InstInfo.new4 "c_jal" InstId.c_jal 0 0,
    InstInfo.new4 "c_li" InstId.c_li 0 0,
    InstInfo.new4 "c_addi16sp" InstId.c_addi16sp 0 0,
    InstInfo.new4 "c_lui" InstId.c_lui 0 0,
    InstInfo.new4 "c_srli" InstId.c_srli 0 0,
    InstInfo.new4 "c_srli64" InstId.c_srli64 0 0,
    InstInfo.new4 "c_srai" InstId.c_srai 0 0,
    InstInfo.new4 "c_srai64" InstId.c_srai64 0 0,
    InstInfo.new4 "c_andi" InstId.c_andi 0 0,
    InstInfo.new4 "c_sub" InstId.c_sub 0 0,
    InstInfo.new4 "c_xor" InstId.c_xor 0 0,
    InstInfo.new4 "c_or" InstId.c_or 0 0,
    InstInfo.new4 "c_and" InstId.c_and 0 0,
    InstInfo.new4 "c_subw" InstId.c_subw 0 0,
    InstInfo.new4 "c_addw" InstId.c_addw 0 0,
    InstInfo.new4 "c_j" InstId.c_j 0 0,
    InstInfo.new4 "c_beqz" InstId.c_beqz 0 0,
    InstInfo.new4 "c_bnez" InstId.c_bnez 0 0,
    InstInfo.new4 "c_slli" InstId.c_slli 0 0,
    InstInfo.new4 "c_slli64" InstId.c_slli64 0 0,
    InstInfo.new4 "c_fldsp" InstId.c_fldsp 0 0,
    InstInfo.new4 "c_lwsp" InstId.c_lwsp 0 0,
    InstInfo.new4 "c_flwsp" InstId.c_flwsp 0 0,
    InstInfo.new4 "c_jr" InstId.c_jr 0 0,
    InstInfo.new4 "c_ebreak" InstId.c_ebreak 0 0,
    InstInfo.new4 "c_jalr" InstId.c_jalr 0 0,
    InstInfo.new4 "c_add" InstId.c_add 0 0,
    InstInfo.new4 "c_fsdsp" InstId.c_fsdsp 0 0,
    InstInfo.new4 "c_swsp" InstId.c_swsp 0 0,
    InstInfo.new4 "c_fswsp" InstId.c_fswsp 0 0
  ]

/-! ## `InstInfoTable`: the table, its name index and the two lookups -/

/-- The operation `instMap_.find(name)` on the name index, an
`unordered_map<string, InstId>` kept as a list of key/value pairs: the value
stored under `name`, or `none` for `end()`. -/
def instMapFind : List (String × InstId) → String → Option InstId
  | [], _ => none
  | (k, v) :: rest, name => if k = name then some v else instMapFind rest name

/-- The operation `instMap_[name] = id`: overwrite the value stored under
`name` if the key is present, insert the pair otherwise. -/
def instMapAssign : List (String × InstId) → String → InstId → List (String × InstId)
  | [], name, id => [(name, id)]
  | (k, v) :: rest, name, id =>
    if k = name then (k, id) :: rest else (k, v) :: instMapAssign rest name id

/-- The data members of `class InstInfoTable`. -/
structure InstInfoTable where
  instVec_ : List InstInfo
  instMap_ : List (String × InstId)

namespace InstInfoTable

/-- The constructor `InstInfoTable::InstInfoTable`: build the table, then walk
it in order and record `instMap_[instInfo.name()] = instInfo.instId()`. -/
def new : InstInfoTable :=
  let instVec := setupInstVec
  { instVec_ := instVec,
    instMap_ := instVec.foldl (fun m instInfo => instMapAssign m instInfo.name instInfo.instId) [] }

/-- The lookup `InstInfoTable::getInstInfo(InstId id)`.  `toSize` is the
conversion `size_t(id)` fixed by the enumeration's declaration.  `front()` of
an empty vector and `at` beyond the end have no value and give `none`. -/
def getInstInfo (toSize : InstId → Nat) (t : InstInfoTable) (id : InstId) :
    Option InstInfo :=
  if toSize id ≥ t.instVec_.length then
    t.instVec_.head?
  else
    t.instVec_[toSize id]?

/-- The lookup `InstInfoTable::getInstInfo(const std::string& name)`. -/
def getInstInfoByName (toSize : InstId → Nat) (t : InstInfoTable) (name : String) :
    Option InstInfo :=
  match instMapFind t.instMap_ name with
  | none => t.instVec_.head?
  | some id => t.getInstInfo toSize id

end InstInfoTable

/-- The numbering under which the enumerators of `InstId` count the catalog
rows in declaration order: `illegal` is 0, `lui` is 1, and so on.  It is one
admissible value of the conversion `size_t(id)` that the lookups take. -/
def declaredIndex (id : InstId) : Nat :=
  (setupInstVec.map InstInfo.instId).indexOf id

/-! ## `DecodedInst` -/

/-- Modelled from the spec: `FpRegs.hpp`, which declares `RoundingMode`, is not
among the sources.  `NearestEven` is the enumerator `DecodedInst.hpp` names;
the others are the remaining RISC-V rounding modes. -/
inductive RoundingMode where
  | NearestEven | Zero | Down | Up | NearestMax | Dynamic
deriving DecidableEq, Repr

/-- Conversion of an unsigned 32-bit value to `int32_t` (two's complement). -/
def toInt32 (n : Nat) : Int :=
  if u32 n < 2147483648 then (u32 n : Int) else (u32 n : Int) - 4294967296

/-- The data members of `class DecodedInst`.  The pointer `info_` is `none`
when null and otherwise carries the catalog row it points to. -/
structure DecodedInst where
  addr_ : Nat
  inst_ : Nat
  size_ : Nat
  info_ : Option InstInfo
  op0_ : Nat
  op1_ : Nat
  op2_ : Int
  op3_ : Int
  rm_ : RoundingMode
deriving DecidableEq, Repr

namespace DecodedInst

/-- The eight-argument constructor of `DecodedInst`; `rm_` takes its default
member initialiser `RoundingMode::NearestEven`. -/
def new (addr inst size : Nat) (info : Option InstInfo) (op0 op1 : Nat) (op2 op3 : Int) :
    DecodedInst :=
  { addr_ := addr, inst_ := inst, size_ := size, info_ := info,
    op0_ := op0, op1_ := op1, op2_ := op2, op3_ := op3,
    rm_ := RoundingMode.NearestEven }

/-- Accessor `DecodedInst::op0`. -/
def op0 (d : DecodedInst) : Nat := d.op0_

/-- Accessor `DecodedInst::instInfo`. -/
def instInfo (d : DecodedInst) : Option InstInfo := d.info_

end DecodedInst

/-! ## The decode rule of the specification -/

/-- Modelled from the spec: the decoder is not among the sources.  A row is a
placeholder when `mask == 0 && code == 0` (spec §4.1). -/
def InstInfo.isPlaceholder (e : InstInfo) : Bool :=
  e.codeMask == 0 && e.code == 0

/-- Modelled from the spec: the decoder is not among the sources.  A word `w`
matches a row iff `(w & mask) == code` (spec §3). -/
def InstInfo.matchesWord (e : InstInfo) (w : Nat) : Bool :=
  (w &&& e.codeMask) == e.code

/-- Modelled from the spec: the decoder is not among the sources.  The scan of
spec §4.2 over the ordered, non-placeholder subset of a table: the first row
that the word matches, if any. -/
def firstMatch (vec : List InstInfo) (w : Nat) : Option InstInfo :=
  (vec.filter (fun e => !e.isPlaceholder)).find? (fun e => e.matchesWord w)

/-- Modelled from the spec: the decoder is not among the sources.  The scan
that spec §4.1 rules out: first match over all rows, zero-mask rows
included. -/
def firstMatchNoSkip (vec : List InstInfo) (w : Nat) : Option InstInfo :=
  vec.find? (fun e => e.matchesWord w)

/-- Modelled from the spec: the decoder is not among the sources.  Position of
the lowest set bit of a field mask among the 32 bit positions (0 for an empty
mask): the shift that brings an extracted field to its canonical position. -/
def fieldShift (mask : Nat) : Nat :=
  ((List.range 32).find? (fun i => mask.testBit i)).getD 0

/-- Modelled from the spec: the decoder is not among the sources.  Value of an
operand: the `fieldMask` bits of the word shifted down (spec §4.2); an unused
descriptor, of type `None`, gives 0. -/
def operandValue (w : Nat) (type : OperandType) (fieldMask : Nat) : Nat :=
  if type = OperandType.None then 0 else (w &&& fieldMask) >>> fieldShift fieldMask

/-- Modelled from the spec: the decoder is not among the sources.  The row a
word resolves to over a table (spec §4.2): the first match of the scan, and,
when no row matches, the fallback for failed lookups, which is the row at
index 0 of the table (spec §3; `instVec_.front()` in both lookups of
`InstInfo.cpp`).  In the declared table that row is `illegal`. -/
def decodeInfo (vec : List InstInfo) (w : Nat) : Option InstInfo :=
  match firstMatch vec w with
  | some e => some e
  | none => vec.head?

/-- Modelled from the spec: the decoder is not among the sources.
`decode(address, rawWord, sizeInBytes)` of spec §4.2 over a table: the
resolved row with its three operand fields extracted into `op0..op2`; slots
without a descriptor are 0. -/
def decode (vec : List InstInfo) (address rawWord sizeInBytes : Nat) : DecodedInst :=
  match decodeInfo vec rawWord with
  | some e =>
    DecodedInst.new address rawWord sizeInBytes (some e)
      (operandValue rawWord e.op0Type_ e.op0Mask_)
      (operandValue rawWord e.op1Type_ e.op1Mask_)
      (toInt32 (operandValue rawWord e.op2Type_ e.op2Mask_))
      0
  | none => DecodedInst.new address rawWord sizeInBytes none 0 0 0 0

/-- Number of set bits among the 32 bit positions of a mask: the specificity
of a pattern. -/
def popCount (mask : Nat) : Nat :=
  (List.range 32).countP (fun i => mask.testBit i)

/-- The opcode family of a row: the low 7 bits of its code. -/
def InstInfo.family (e : InstInfo) : Nat := e.code &&& 0x7f


/-- Two patterns differ on a bit that both masks fix; no word can then match
both (see `no_common_word`). -/
def InstInfo.disjointFrom (a b : InstInfo) : Bool :=
  ((a.code ^^^ b.code) &&& a.codeMask &&& b.codeMask) != 0

/-- The non-placeholder rows of the catalog, in declaration order: the rows
the scan of spec §4.2 ranges over. -/
def nonPlaceholders : List InstInfo :=
  setupInstVec.filter (fun e => !e.isPlaceholder)

/-- The ordering rule of spec §4.1 read on a table: within an opcode family a
row declared earlier has a mask with at least as many set bits as any row
declared later. -/
def MostSpecificFirst (vec : List InstInfo) : Prop :=
  ∀ (i j : Nat) (hij : i < j) (hj : j < vec.length),
    (vec.get ⟨i, Nat.lt_trans hij hj⟩).isPlaceholder = false →
    (vec.get ⟨j, hj⟩).isPlaceholder = false →
    (vec.get ⟨i, Nat.lt_trans hij hj⟩).family = (vec.get ⟨j, hj⟩).family →
    popCount (vec.get ⟨j, hj⟩).codeMask ≤ popCount (vec.get ⟨i, Nat.lt_trans hij hj⟩).codeMask


/-! ## `DecodedInst`: the remaining members -/

/-- Conversion of an `int32_t` to `uint32_t` (reduction modulo `2^32`), as in
`uint32_t rs2() const { return op2_; }`. -/
def toUInt32 (x : Int) : Nat := (x % 4294967296).toNat

/-- The C++ comparison `a == b` of a `uint32_t` with an `int32_t`: by the usual
arithmetic conversions the signed operand is converted to `uint32_t` first. -/
def eqUInt32Int32 (a : Nat) (b : Int) : Bool := a == toUInt32 b

namespace DecodedInst

/-- The default constructor of `DecodedInst`: all members 0, `info_` null;
`rm_` takes its default member initialiser `RoundingMode::NearestEven`. -/
def newDefault : DecodedInst :=
  { addr_ := 0, inst_ := 0, size_ := 0, info_ := none,
    op0_ := 0, op1_ := 0, op2_ := 0, op3_ := 0,
    rm_ := RoundingMode.NearestEven }

/-- Accessor `DecodedInst::instSize`. -/
def instSize (d : DecodedInst) : Nat := d.size_

/-- Accessor `DecodedInst::address`. -/
def address (d : DecodedInst) : Nat := d.addr_

/-- Accessor `DecodedInst::inst`. -/
def inst (d : DecodedInst) : Nat := d.inst_

/-- Accessor `DecodedInst::op1`. -/
def op1 (d : DecodedInst) : Nat := d.op1_

/-- Accessor `DecodedInst::op2`, an `int32_t`. -/
def op2 (d : DecodedInst) : Int := d.op2_

/-- Accessor `DecodedInst::op3`, an `int32_t`. -/
def op3 (d : DecodedInst) : Int := d.op3_

/-- Alias `DecodedInst::rd`: returns `op0_`. -/
def rd (d : DecodedInst) : Nat := d.op0_

/-- Alias `DecodedInst::rs1`: returns `op1_`. -/
def rs1 (d : DecodedInst) : Nat := d.op1_

/-- Alias `DecodedInst::rs2`: returns `op2_` converted to `uint32_t`. -/
def rs2 (d : DecodedInst) : Nat := toUInt32 d.op2_

/-- Alias `DecodedInst::imm`: returns `op2_`, an `int32_t`. -/
def imm (d : DecodedInst) : Int := d.op2_

/-- Alias `DecodedInst::rs3`: returns `op3_` converted to `uint32_t`. -/
def rs3 (d : DecodedInst) : Nat := toUInt32 d.op3_

/-- Member `DecodedInst::isValid`: `info_ != nullptr`. -/
def isValid (d : DecodedInst) : Bool := d.info_.isSome

/-- Member `DecodedInst::invalidate`: `info_ = nullptr`. -/
def invalidate (d : DecodedInst) : DecodedInst := { d with info_ := none }

/-- Accessor `DecodedInst::roundingMode`. -/
def roundingMode (d : DecodedInst) : RoundingMode := d.rm_

/-- Member `DecodedInst::setRoundingMode`: `rm_ = rm`. -/
def setRoundingMode (d : DecodedInst) (rm : RoundingMode) : DecodedInst :=
  { d with rm_ := rm }

/-- The two members of `DecodedInst` that modify the object. -/
inductive Mutation where
  | invalidate
  | setRoundingMode (rm : RoundingMode)
deriving DecidableEq, Repr

/-- Effect of one modifying member call on a record. -/
def applyMutation (d : DecodedInst) : Mutation → DecodedInst
  | Mutation.invalidate => d.invalidate
  | Mutation.setRoundingMode rm => d.setRoundingMode rm

/-- Effect of a sequence of modifying member calls, in order. -/
def applyMutations (d : DecodedInst) (ms : List Mutation) : DecodedInst :=
  ms.foldl applyMutation d

end DecodedInst

/-! ## The interactive session: the `replay` command -/

/-- Modelled from the spec: `Interactive.cpp` is not among the sources, only the
declarations of `Interactive.hpp` are.  The session state of spec §3: the hart
handles (`cores_`), the selected hart, the reset policy flag
(`resetMemoryMappedRegs_`), the replay binding (`none` while no replay file is
bound, else the lines from the read cursor on), the `done` flag, and the
messages reported to the user. -/
structure Session (Hart : Type) where
  hartHandles : List Hart
  currentHartId : Nat
  resetMemoryMappedRegsOnReset : Bool
  replayBinding : Option (List String)
  done : Bool
  reported : List String

/-- Modelled from the spec: the session is Idle when no replay file is bound
(spec §4.4). -/
def Session.isIdle {Hart : Type} (s : Session Hart) : Bool := s.replayBinding.isNone

/-- Modelled from the spec: `Interactive.cpp` is not among the sources.  The
handler of `replay [count]` (`Interactive::replayCommand`, spec §4.4): issued
while no replay file is bound it is an error, reported to the user, with no
mutation, and the handler returns failure; with a bound stream it replays
lines from it, which is the parameter `replayBound` here, as it runs the
dispatch of every other command against the external hart engine. -/
def replayCommand {Hart : Type}
    (replayBound : Session Hart → List String → List String → Bool × Session Hart)
    (s : Session Hart) (tokens : List String) : Bool × Session Hart :=
  match s.replayBinding with
  | none => (false, { s with reported := s.reported ++ ["replay: no replay file bound"] })
  | some lines => replayBound s lines tokens

/-! ## Operand descriptors and classification of a row -/

/-- The agreement of type and mode in one operand descriptor: a register
operand (`IntReg`, `FpReg`, `CsReg`) is read, written or both, an immediate has
mode `None`, and an unused descriptor has mode `None` and field mask 0. -/
def operandAgrees (type : OperandType) (mode : OperandMode) (fieldMask : Nat) : Bool :=
  match type with
  | OperandType.IntReg | OperandType.FpReg | OperandType.CsReg =>
    mode == OperandMode.Read || mode == OperandMode.Write || mode == OperandMode.ReadWrite
  | OperandType.Imm => mode == OperandMode.None
  | OperandType.None => mode == OperandMode.None && fieldMask == 0

/-- Type and mode agree in each of the three operand descriptors of a row. -/
def InstInfo.typeModeAgree (e : InstInfo) : Bool :=
  operandAgrees e.op0Type_ e.op0Mode_ e.op0Mask_ &&
  operandAgrees e.op1Type_ e.op1Mode_ e.op1Mask_ &&
  operandAgrees e.op2Type_ e.op2Mode_ e.op2Mask_

/-- The rows that `setupInstVec` writes with an `InstType` argument.  The type
precedes the operand descriptors in the argument list and every row written
with a type also has operands, so these are the rows with an operand. -/
def InstInfo.hasExplicitType (e : InstInfo) : Bool := e.opCount_ != 0

/-- The ids of the multiply rows `mul`, `mulh`, `mulhsu`, `mulhu`. -/
def multiplyIds : List InstId := [InstId.mul, InstId.mulh, InstId.mulhsu, InstId.mulhu]

/-- The ids of the divide rows `div`, `divu`, `rem`, `remu`. -/
def divideIds : List InstId := [InstId.div, InstId.divu, InstId.rem, InstId.remu]

/-- Modelled from the spec: `InstId.hpp` is not among the sources.  The
conversion `size_t(id)` of an enumeration without explicit values: the position
of the enumerator in the declaration, the first being 0.  The enumerators are
taken in the order of the catalog rows: by spec §3 there is one catalog entry
per instruction id, with `illegal` at index 0, and by spec §4.1 the lookup by
id reads the table at the id's value. -/
def InstId.toSize (id : InstId) : Nat := id.toCtorIdx

/-- The pairs of ids that `setupInstVec` declares with the less specific mask
first: in family `0x13` each of `addi, slti, sltiu, xori, ori, andi` before each
of `slli, srli, srai`, and in family `0x0f` `fence` before `fencei`. -/
def orderExceptions : List (InstId × InstId) :=
  [(InstId.addi, InstId.slli), (InstId.addi, InstId.srli), (InstId.addi, InstId.srai),
   (InstId.slti, InstId.slli), (InstId.slti, InstId.srli), (InstId.slti, InstId.srai),
   (InstId.sltiu, InstId.slli), (InstId.sltiu, InstId.srli), (InstId.sltiu, InstId.srai),
   (InstId.xori, InstId.slli), (InstId.xori, InstId.srli), (InstId.xori, InstId.srai),
   (InstId.ori, InstId.slli), (InstId.ori, InstId.srli), (InstId.ori, InstId.srai),
   (InstId.andi, InstId.slli), (InstId.andi, InstId.srli), (InstId.andi, InstId.srai),
   (InstId.fence, InstId.fencei)]

/-- The inversions of a table: the pairs of non-placeholder rows of one opcode
family in which the row declared first has the mask with fewer set bits, listed
by id in declaration order. -/
def orderInversions : List InstInfo → List (InstId × InstId)
  | [] => []
  | a :: rest =>
    (rest.filter (fun b => !a.isPlaceholder && !b.isPlaceholder && a.family == b.family
        && decide (popCount a.codeMask < popCount b.codeMask))).map
      (fun b => (a.instId, b.instId))
    ++ orderInversions rest

/-! ## Auxiliary facts -/

/-- The catalog has 203 rows. -/
theorem setupInstVec_length : setupInstVec.length = 203 := by decide!

/-- The row at index 0 of the catalog. -/
theorem setupInstVec_head :
    setupInstVec.head? = some (InstInfo.new4 "illegal" InstId.illegal 0xffffffff 0xffffffff) := by
  decide!

/-- Reading a key right after assigning it, or any other key. -/
theorem instMapFind_assign (m : List (String × InstId)) (k : String) (v : InstId)
    (name : String) :
    instMapFind (instMapAssign m k v) name
      = if k = name then some v else instMapFind m name := by
  induction m with
  | nil => simp [instMapAssign, instMapFind]
  | cons kv rest ih =>
    obtain ⟨k0, v0⟩ := kv
    by_cases h0 : k0 = k
    · subst h0
      by_cases h1 : k0 = name <;> simp [instMapAssign, instMapFind, h1]
    · by_cases h1 : k0 = name
      · have h2 : ¬ k = name := fun h => h0 (h1.trans h.symm)
        subst h1
        simp [instMapAssign, instMapFind, h0, h2]
      · simp [instMapAssign, instMapFind, h0, h1, ih]

/-- A key that none of the registered rows carries is absent from the index
after the registration loop, if it was absent before. -/
theorem instMapFind_foldl_absent (l : List InstInfo) (m : List (String × InstId))
    (name : String) (hm : instMapFind m name = none)
    (hl : ∀ e ∈ l, e.name ≠ name) :
    instMapFind (l.foldl (fun m instInfo => instMapAssign m instInfo.name instInfo.instId) m)
      name = none := by
  induction l generalizing m with
  | nil => simpa using hm
  | cons e rest ih =>
    simp only [List.foldl_cons]
    apply ih
    · rw [instMapFind_assign]
      have : ¬ e.name = name := hl e (List.mem_cons_self _ _)
      simp [this, hm]
    · intro e2 he2
      exact hl e2 (List.mem_cons_of_mem _ he2)

/-- The resolved row of a decode is the row `decodeInfo` selects. -/
theorem decode_instInfo (vec : List InstInfo) (address rawWord sizeInBytes : Nat) :
    (decode vec address rawWord sizeInBytes).instInfo = decodeInfo vec rawWord := by
  unfold decode
  cases decodeInfo vec rawWord <;> rfl

/-- A row found by the scan is the row the word resolves to. -/
theorem decodeInfo_of_firstMatch (vec : List InstInfo) (w : Nat) (e : InstInfo)
    (h : firstMatch vec w = some e) : decodeInfo vec w = some e := by
  simp [decodeInfo, h]

/-- Every non-placeholder row is the first match of its own code, and no
non-placeholder row declared before it matches that code. -/
theorem firstMatch_own_code_fin :
    ∀ i : Fin setupInstVec.length, (setupInstVec.get i).isPlaceholder = false →
      firstMatch setupInstVec (setupInstVec.get i).code = some (setupInstVec.get i) ∧
      ∀ m ∈ setupInstVec.take i, m.isPlaceholder = false →
        m.matchesWord (setupInstVec.get i).code = false := by
  decide!


/-- The table member of the constructed `InstInfoTable` is the catalog. -/
theorem new_instVec : InstInfoTable.new.instVec_ = setupInstVec := rfl


/-- The index member of the constructed `InstInfoTable` is the result of the
registration loop over the catalog. -/
theorem new_instMap :
    InstInfoTable.new.instMap_
      = setupInstVec.foldl
          (fun m instInfo => instMapAssign m instInfo.name instInfo.instId) [] := by
  simp only [InstInfoTable.new]

/-- No two rows of the catalog carry the same name. -/
theorem name_nodup : (setupInstVec.map InstInfo.name).Nodup := by
  decide!

/-- Assigning a key that is not yet present appends the pair. -/
theorem instMapAssign_absent (m : List (String × InstId)) (k : String) (v : InstId)
    (h : ∀ kv ∈ m, kv.1 ≠ k) : instMapAssign m k v = m ++ [(k, v)] := by
  induction m with
  | nil => rfl
  | cons kv rest ih =>
    obtain ⟨k0, v0⟩ := kv
    have h0 : ¬ k0 = k := h (k0, v0) (List.mem_cons_self _ _)
    have hrest : ∀ kv ∈ rest, kv.1 ≠ k := fun kv hkv => h kv (List.mem_cons_of_mem _ hkv)
    simp [instMapAssign, h0, ih hrest]

/-- Registering rows whose names are new and pairwise distinct appends one pair
per row, in order. -/
theorem foldl_instMapAssign (l : List InstInfo) (m : List (String × InstId))
    (hnd : (m.map Prod.fst ++ l.map InstInfo.name).Nodup) :
    l.foldl (fun m instInfo => instMapAssign m instInfo.name instInfo.instId) m
      = m ++ l.map (fun e => (e.name, e.instId)) := by
  induction l generalizing m with
  | nil => simp
  | cons e rest ih =>
    have hfresh : ∀ kv ∈ m, kv.1 ≠ e.name := by
      intro kv hkv heq
      have hdis := (List.nodup_append.mp hnd).2.2
      exact hdis (List.mem_map_of_mem Prod.fst hkv) (heq ▸ List.mem_map_of_mem InstInfo.name
        (List.mem_cons_self e rest))
    simp only [List.foldl_cons]
    rw [instMapAssign_absent m e.name e.instId hfresh, ih]
    · simp
    · simpa [List.map_append, List.append_assoc] using hnd

/-- In a list of pairs made from rows with pairwise distinct names, a row's
name is bound to that row's id. -/
theorem instMapFind_map (l : List InstInfo) (hnd : (l.map InstInfo.name).Nodup)
    (e : InstInfo) (he : e ∈ l) :
    instMapFind (l.map (fun e => (e.name, e.instId))) e.name = some e.instId := by
  induction l with
  | nil => cases he
  | cons a rest ih =>
    have hnd2 := List.nodup_cons.mp hnd
    simp only [List.map_cons, instMapFind]
    rcases List.mem_cons.mp he with heq | hmem
    · subst heq
      simp
    · have hne : ¬ a.name = e.name := by
        intro hname
        exact hnd2.1 (hname ▸ List.mem_map_of_mem InstInfo.name hmem)
      rw [if_neg hne]
      exact ih hnd2.2 hmem

/-- The name index after construction: one pair per row, in declaration
order. -/
theorem new_instMap_eq :
    InstInfoTable.new.instMap_ = setupInstVec.map (fun e => (e.name, e.instId)) := by
  rw [new_instMap, foldl_instMapAssign setupInstVec [] (by simpa using name_nodup)]
  simp

/-- After construction every row's name is a key of the index and maps to that
row's own id. -/
theorem instMapFind_registered (e : InstInfo) (he : e ∈ setupInstVec) :
    instMapFind InstInfoTable.new.instMap_ e.name = some e.instId := by
  rw [new_instMap_eq]
  exact instMapFind_map setupInstVec name_nodup e he

/-- The declaration-order numbering gives each row's id the row's position. -/
theorem declaredIndex_position :
    ∀ i : Fin setupInstVec.length, declaredIndex (setupInstVec.get i).instId = i := by
  decide!

/-- An id whose number is a position of the table is looked up to the row at
that position. -/
theorem getInstInfo_in_range (toSize : InstId → Nat) (id : InstId) (i : Nat)
    (h : i < setupInstVec.length) (hid : toSize id = i) :
    InstInfoTable.new.getInstInfo toSize id = some (setupInstVec.get ⟨i, h⟩) := by
  unfold InstInfoTable.getInstInfo
  rw [new_instVec, hid, if_neg (Nat.not_le.mpr h), List.getElem?_eq_getElem h]
  rfl

/-- A word below `2^32` is matched by the all-ones pattern exactly when it is
the all-ones word. -/
theorem and_all_ones_eq_iff (w : Nat) (hw : w < 4294967296) :
    w &&& 4294967295 = 4294967295 ↔ w = 4294967295 := by
  have h := Nat.and_pow_two_sub_one_of_lt_two_pow (n := 32) (x := w) (by simpa using hw)
  have h2 : w &&& 4294967295 = w := by simpa using h
  rw [h2]

/-- Two patterns matched by a common word agree on every bit that both masks
fix. -/
theorem common_word_agree (w c1 m1 c2 m2 : Nat) (h1 : w &&& m1 = c1) (h2 : w &&& m2 = c2) :
    (c1 ^^^ c2) &&& m1 &&& m2 = 0 := by
  subst h1 h2
  apply Nat.eq_of_testBit_eq
  intro i
  simp only [Nat.testBit_and, Nat.testBit_xor, Nat.zero_testBit]
  cases w.testBit i <;> cases m1.testBit i <;> cases m2.testBit i <;> rfl

/-- Rows whose patterns differ on a commonly fixed bit match no common word. -/
theorem no_common_word (a b : InstInfo) (h : a.disjointFrom b = true) (w : Nat) :
    ¬ (a.matchesWord w = true ∧ b.matchesWord w = true) := by
  rintro ⟨ha, hb⟩
  unfold InstInfo.matchesWord at ha hb
  rw [beq_iff_eq] at ha hb
  have hz := common_word_agree w a.code a.codeMask b.code b.codeMask ha hb
  unfold InstInfo.disjointFrom at h
  rw [hz] at h
  exact absurd h (by decide)

/-- Any two different non-placeholder rows differ on a commonly fixed bit. -/
theorem nonPlaceholders_disjoint :
    ∀ a ∈ nonPlaceholders, ∀ b ∈ nonPlaceholders, a = b ∨ a.disjointFrom b = true := by
  decide!

/-- A search whose predicate holds of at most one element gives the same
answer on every rearrangement of the list. -/
theorem find?_perm_of_unique {α : Type} (q : α → Bool) (l1 l2 : List α)
    (hperm : l1.Perm l2)
    (huniq : ∀ a ∈ l2, ∀ b ∈ l2, q a = true → q b = true → a = b) :
    l1.find? q = l2.find? q := by
  cases h2 : l2.find? q with
  | none =>
    rw [List.find?_eq_none] at h2 ⊢
    intro x hx
    exact h2 x (hperm.mem_iff.mp hx)
  | some b =>
    have hb := List.mem_of_find?_eq_some h2
    have hqb := List.find?_some h2
    cases h1 : l1.find? q with
    | none =>
      rw [List.find?_eq_none] at h1
      exact absurd hqb (h1 b (hperm.mem_iff.mpr hb))
    | some a =>
      have ha := hperm.mem_iff.mp (List.mem_of_find?_eq_some h1)
      have hqa := List.find?_some h1
      rw [huniq a ha b hb hqa hqb]

/-- The scan over any rearrangement of the non-placeholder rows finds what the
scan over the declared table finds. -/
theorem firstMatch_perm (p : List InstInfo) (hp : p.Perm nonPlaceholders) (w : Nat) :
    firstMatch p w = firstMatch setupInstVec w := by
  have hfilter : p.filter (fun e => !e.isPlaceholder) = p := by
    rw [List.filter_eq_self]
    intro a ha
    have hmem : a ∈ nonPlaceholders := hp.mem_iff.mp ha
    exact (List.mem_filter.mp hmem).2
  have hdecl : firstMatch setupInstVec w
      = nonPlaceholders.find? (fun e => e.matchesWord w) := rfl
  unfold firstMatch
  rw [hfilter]
  rw [show (List.filter (fun e => !e.isPlaceholder) setupInstVec) = nonPlaceholders from rfl]
  apply find?_perm_of_unique _ _ _ hp
  intro a ha b hb hqa hqb
  rcases nonPlaceholders_disjoint a ha b hb with heq | hdis
  · exact heq
  · exact absurd ⟨hqa, hqb⟩ (no_common_word a b hdis w)

/-- Every zero-mask row of the catalog has code 0. -/
theorem zero_mask_zero_code : ∀ e ∈ setupInstVec, e.codeMask = 0 → e.code = 0 := by
  decide!

/-- The catalog splits at row 48: the 48 rows declared first, then `lwu`. -/
theorem setupInstVec_split :
    setupInstVec
      = setupInstVec.take 48 ++ InstInfo.new4 "lwu" InstId.lwu 0 0 :: setupInstVec.drop 49 := by
  decide!

/-- Within an opcode family a row declared before another has the mask with at
least as many set bits, unless the pair is one of the listed exceptions; the
listed pairs have the less specific mask first and differ on a commonly fixed
bit. -/
theorem family_order_check :
    setupInstVec.Pairwise (fun a b =>
      a.isPlaceholder = false → b.isPlaceholder = false → a.family = b.family →
        (popCount b.codeMask ≤ popCount a.codeMask ∨ (a.instId, b.instId) ∈ orderExceptions) ∧
        ((a.instId, b.instId) ∈ orderExceptions →
          popCount a.codeMask < popCount b.codeMask ∧ a.disjointFrom b = true)) := by
  decide!

/-! ## Claims -/

/-- C1: for every non-placeholder catalog row `e` (at any position `i`), the
first-match scan that skips placeholders stops at `e` on the word `e.code`: no
non-placeholder row declared before `e` matches it, and the word decodes to
`e`, hence to `e.id`.  The word `0x00000033` resolves to `add`, its rd field
`(w & 0xf80) >> 7` is 0 and the decoded `op0` is 0. -/
theorem own_code_decodes_to_own_row (i : Nat) (h : i < setupInstVec.length)
    (hp : (setupInstVec.get ⟨i, h⟩).isPlaceholder = false) :
    (firstMatch setupInstVec (setupInstVec.get ⟨i, h⟩).code = some (setupInstVec.get ⟨i, h⟩) ∧
      (∀ m ∈ setupInstVec.take i, m.isPlaceholder = false →
        m.matchesWord (setupInstVec.get ⟨i, h⟩).code = false) ∧
      (∀ address size : Nat,
        (decode setupInstVec address (setupInstVec.get ⟨i, h⟩).code size).instInfo
          = some (setupInstVec.get ⟨i, h⟩)) ∧
      (∀ address size : Nat,
        (decode setupInstVec address (setupInstVec.get ⟨i, h⟩).code size).instInfo.map
          InstInfo.instId = some (setupInstVec.get ⟨i, h⟩).instId)) ∧
    ((decode setupInstVec 0 0x00000033 4).instInfo.map InstInfo.instId = some InstId.add ∧
      (0x00000033 &&& 0xf80) >>> 7 = 0 ∧
      (decode setupInstVec 0 0x00000033 4).op0 = 0) := by
  have key := firstMatch_own_code_fin ⟨i, h⟩ hp
  have hdec : ∀ address size : Nat,
      (decode setupInstVec address (setupInstVec.get ⟨i, h⟩).code size).instInfo
        = some (setupInstVec.get ⟨i, h⟩) := by
    intro address size
    rw [decode_instInfo]
    exact decodeInfo_of_firstMatch _ _ _ key.1
  refine ⟨⟨key.1, key.2, hdec, ?_⟩, ?_⟩
  · intro address size
    rw [hdec address size]
    rfl
  · decide!

/-- Witness of C1 at row 28, the row `add` with code `0x33`. -/
theorem own_code_decodes_to_own_row_witness :
    (setupInstVec.get ⟨28, by decide!⟩).instId = InstId.add ∧
    (setupInstVec.get ⟨28, by decide!⟩).code = 0x33 ∧
    firstMatch setupInstVec (setupInstVec.get ⟨28, by decide!⟩).code
      = some (setupInstVec.get ⟨28, by decide!⟩) :=
  ⟨by decide!, by decide!,
    (own_code_decodes_to_own_row 28 (by decide!) (by decide!)).1.1⟩


/-- C2: for every id whose numeric value (under any conversion `size_t(id)`)
is not below the table size, `getInstInfo(id)` has a value, and it is the row
at index 0 of the catalog, the `illegal` sentinel; the table is not empty. -/
theorem getInstInfo_out_of_range (toSize : InstId → Nat) (id : InstId)
    (h : ¬ toSize id < InstInfoTable.new.instVec_.length) :
    InstInfoTable.new.instVec_ ≠ [] ∧
    InstInfoTable.new.getInstInfo toSize id = InstInfoTable.new.instVec_[0]? ∧
    InstInfoTable.new.getInstInfo toSize id
      = some (InstInfo.new4 "illegal" InstId.illegal 0xffffffff 0xffffffff) := by
  have hfront : InstInfoTable.new.getInstInfo toSize id = InstInfoTable.new.instVec_.head? := by
    unfold InstInfoTable.getInstInfo
    rw [if_pos (Nat.le_of_not_lt h)]
  refine ⟨?_, ?_, ?_⟩
  · rw [new_instVec]
    intro hnil
    have hlen := setupInstVec_length
    rw [hnil] at hlen
    exact absurd hlen (by decide)
  · rw [hfront, List.head?_eq_getElem?]
  · rw [hfront, new_instVec, setupInstVec_head]

/-- Witness of C2: under a conversion that sends every id to 203, the size of
the table, the id `add` is out of range. -/
theorem getInstInfo_out_of_range_witness :
    ¬ (fun _ : InstId => 203) InstId.add < InstInfoTable.new.instVec_.length ∧
    InstInfoTable.new.getInstInfo (fun _ : InstId => 203) InstId.add
      = some (InstInfo.new4 "illegal" InstId.illegal 0xffffffff 0xffffffff) :=
  ⟨by decide!, (getInstInfo_out_of_range (fun _ : InstId => 203) InstId.add (by decide!)).2.2⟩

/-- C3: for every string that is not the name of a catalog row, the lookup by
name has a value, the `illegal` sentinel at index 0, and this is the row that
the lookup of any out-of-range id returns. -/
theorem getInstInfoByName_unknown (toSize : InstId → Nat) (name : String)
    (h : ∀ e ∈ InstInfoTable.new.instVec_, e.name ≠ name) :
    InstInfoTable.new.getInstInfoByName toSize name
      = some (InstInfo.new4 "illegal" InstId.illegal 0xffffffff 0xffffffff) ∧
    InstInfoTable.new.getInstInfoByName toSize name = InstInfoTable.new.instVec_[0]? ∧
    (∀ id : InstId, ¬ toSize id < InstInfoTable.new.instVec_.length →
      InstInfoTable.new.getInstInfoByName toSize name
        = InstInfoTable.new.getInstInfo toSize id) := by
  have hfind : instMapFind InstInfoTable.new.instMap_ name = none := by
    rw [new_instMap]
    exact instMapFind_foldl_absent setupInstVec [] name rfl h
  have hfront : InstInfoTable.new.getInstInfoByName toSize name
      = InstInfoTable.new.instVec_.head? := by
    unfold InstInfoTable.getInstInfoByName
    rw [hfind]
  refine ⟨?_, ?_, ?_⟩
  · rw [hfront, new_instVec, setupInstVec_head]
  · rw [hfront, List.head?_eq_getElem?]
  · intro id hid
    rw [hfront]
    unfold InstInfoTable.getInstInfo
    rw [if_pos (Nat.le_of_not_lt hid)]

/-- Witness of C3 at the strings `nonexistent`, the empty string and `ADD`. -/
theorem getInstInfoByName_unknown_witness :
    (InstInfoTable.new.getInstInfoByName declaredIndex "nonexistent"
      = some (InstInfo.new4 "illegal" InstId.illegal 0xffffffff 0xffffffff)) ∧
    (InstInfoTable.new.getInstInfoByName declaredIndex ""
      = some (InstInfo.new4 "illegal" InstId.illegal 0xffffffff 0xffffffff)) ∧
    (InstInfoTable.new.getInstInfoByName declaredIndex "ADD"
      = some (InstInfo.new4 "illegal" InstId.illegal 0xffffffff 0xffffffff)) :=
  ⟨(getInstInfoByName_unknown declaredIndex "nonexistent" (by decide!)).1,
   (getInstInfoByName_unknown declaredIndex "" (by decide!)).1,
   (getInstInfoByName_unknown declaredIndex "ADD" (by decide!)).1⟩

/-- C4: when the ids number the rows in declaration order, the lookup by name
round-trips: for every catalog row `e`, the name index maps `e.name()` to
`e.instId()` and `getInstInfo(e.name())` is `e` itself, with the same name, id,
code and mask. -/
theorem getInstInfoByName_roundtrip (toSize : InstId → Nat)
    (hnum : ∀ (i : Nat) (h : i < setupInstVec.length),
      toSize (setupInstVec.get ⟨i, h⟩).instId = i)
    (e : InstInfo) (he : e ∈ InstInfoTable.new.instVec_) :
    instMapFind InstInfoTable.new.instMap_ e.name = some e.instId ∧
    InstInfoTable.new.getInstInfoByName toSize e.name = some e ∧
    (∀ r : InstInfo, InstInfoTable.new.getInstInfoByName toSize e.name = some r →
      r.name = e.name ∧ r.instId = e.instId ∧ r.code = e.code ∧ r.codeMask = e.codeMask) := by
  have hfind := instMapFind_registered e he
  have hlook : InstInfoTable.new.getInstInfoByName toSize e.name = some e := by
    obtain ⟨i, hi, hie⟩ := List.getElem_of_mem he
    have hi2 : i < setupInstVec.length := hi
    have hget : setupInstVec.get ⟨i, hi2⟩ = e := hie
    have hid : toSize e.instId = i := by
      rw [← hget]
      exact hnum i hi2
    unfold InstInfoTable.getInstInfoByName
    rw [hfind]
    show InstInfoTable.new.getInstInfo toSize e.instId = some e
    rw [getInstInfo_in_range toSize e.instId i hi2 hid, hget]
  refine ⟨hfind, hlook, ?_⟩
  intro r hr
  rw [hlook] at hr
  cases hr
  exact ⟨rfl, rfl, rfl, rfl⟩

/-- Witness of C4: the declaration-order numbering and the row `add`. -/
theorem getInstInfoByName_roundtrip_witness :
    (∀ (i : Nat) (h : i < setupInstVec.length),
      declaredIndex (setupInstVec.get ⟨i, h⟩).instId = i) ∧
    setupInstVec.get ⟨28, by decide!⟩ ∈ InstInfoTable.new.instVec_ ∧
    InstInfoTable.new.getInstInfoByName declaredIndex (setupInstVec.get ⟨28, by decide!⟩).name
      = some (setupInstVec.get ⟨28, by decide!⟩) :=
  ⟨fun i h => declaredIndex_position ⟨i, h⟩, by decide!,
    (getInstInfoByName_roundtrip declaredIndex (fun i h => declaredIndex_position ⟨i, h⟩)
      (setupInstVec.get ⟨28, by decide!⟩) (by decide!)).2.1⟩

/-- C6: the names of the catalog rows are pairwise distinct, so the name index
built by the constructor has as many keys as the table has rows, its keys are
the rows' names in order, and every row's name still maps to that row's id: no
row is shadowed by a later one. -/
theorem names_pairwise_distinct :
    (setupInstVec.map InstInfo.name).Nodup ∧
    setupInstVec.Pairwise (fun a b => a.name ≠ b.name) ∧
    InstInfoTable.new.instMap_.length = InstInfoTable.new.instVec_.length ∧
    InstInfoTable.new.instMap_.map Prod.fst = setupInstVec.map InstInfo.name ∧
    (∀ e ∈ InstInfoTable.new.instVec_,
      instMapFind InstInfoTable.new.instMap_ e.name = some e.instId) := by
  refine ⟨name_nodup, List.pairwise_map.mp name_nodup, ?_, ?_, instMapFind_registered⟩
  · rw [new_instMap_eq, new_instVec, List.length_map]
  · rw [new_instMap_eq, List.map_map]
    rfl

/-- Witness of C6 at the row `add`: its name is still bound to its id. -/
theorem names_pairwise_distinct_witness :
    setupInstVec.get ⟨28, by decide!⟩ ∈ InstInfoTable.new.instVec_ ∧
    instMapFind InstInfoTable.new.instMap_ (setupInstVec.get ⟨28, by decide!⟩).name
      = some InstId.add :=
  ⟨by decide!, names_pairwise_distinct.2.2.2.2 (setupInstVec.get ⟨28, by decide!⟩) (by decide!)⟩

/-- C7: the catalog row at index 0 is named `illegal`, has id `illegal` and
code = mask = `0xFFFFFFFF`; among the 32-bit words it matches `0xFFFFFFFF` and
no other; and the first-match scan on `0xFFFFFFFF` stops at this row, so the
word decodes to it. -/
theorem illegal_sentinel_row :
    (setupInstVec[0]? = some (InstInfo.new4 "illegal" InstId.illegal 0xffffffff 0xffffffff) ∧
      (InstInfo.new4 "illegal" InstId.illegal 0xffffffff 0xffffffff).name = "illegal" ∧
      (InstInfo.new4 "illegal" InstId.illegal 0xffffffff 0xffffffff).instId = InstId.illegal ∧
      (InstInfo.new4 "illegal" InstId.illegal 0xffffffff 0xffffffff).code = 0xFFFFFFFF ∧
      (InstInfo.new4 "illegal" InstId.illegal 0xffffffff 0xffffffff).codeMask = 0xFFFFFFFF) ∧
    (∀ w : Nat, w < 4294967296 →
      ((InstInfo.new4 "illegal" InstId.illegal 0xffffffff 0xffffffff).matchesWord w = true
        ↔ w = 0xFFFFFFFF)) ∧
    (firstMatch setupInstVec 0xFFFFFFFF = setupInstVec[0]? ∧
      ∀ address size : Nat,
        (decode setupInstVec address 0xFFFFFFFF size).instInfo = setupInstVec[0]?) := by
  refine ⟨by decide!, ?_, ?_⟩
  · intro w hw
    have hcode : (InstInfo.new4 "illegal" InstId.illegal 0xffffffff 0xffffffff).code
        = 4294967295 := by decide!
    have hmask : (InstInfo.new4 "illegal" InstId.illegal 0xffffffff 0xffffffff).codeMask
        = 4294967295 := by decide!
    unfold InstInfo.matchesWord
    rw [hcode, hmask, beq_iff_eq]
    exact and_all_ones_eq_iff w hw
  · have hfm : firstMatch setupInstVec 0xFFFFFFFF = setupInstVec[0]? := by decide!
    refine ⟨hfm, ?_⟩
    intro address size
    rw [decode_instInfo, ← hfm]
    cases hc : firstMatch setupInstVec 0xFFFFFFFF with
    | none =>
      rw [hfm] at hc
      exact absurd hc (by decide!)
    | some e => exact decodeInfo_of_firstMatch _ _ _ hc

/-- Witness of C7: the all-ones word is matched and the zero word is not. -/
theorem illegal_sentinel_row_witness :
    ((InstInfo.new4 "illegal" InstId.illegal 0xffffffff 0xffffffff).matchesWord 0xFFFFFFFF = true
        ↔ 0xFFFFFFFF = 0xFFFFFFFF) ∧
    ((InstInfo.new4 "illegal" InstId.illegal 0xffffffff 0xffffffff).matchesWord 0 = true
        ↔ 0 = 0xFFFFFFFF) :=
  ⟨illegal_sentinel_row.2.1 0xFFFFFFFF (by decide), illegal_sentinel_row.2.1 0 (by decide)⟩


/-- C8, as stated, fails: `addi` (row 19, mask `0x707f`, 10 set bits) is
declared before `slli` (row 25, mask `0xfe00707f`, 17 set bits) in the opcode
family `0x13`, so the table is not ordered from most-specific to
least-specific mask. -/
theorem most_specific_first_fails :
    (setupInstVec.get ⟨19, by decide!⟩).instId = InstId.addi ∧
    (setupInstVec.get ⟨25, by decide!⟩).instId = InstId.slli ∧
    (setupInstVec.get ⟨19, by decide!⟩).family = 0x13 ∧
    (setupInstVec.get ⟨25, by decide!⟩).family = 0x13 ∧
    popCount (setupInstVec.get ⟨19, by decide!⟩).codeMask = 10 ∧
    popCount (setupInstVec.get ⟨25, by decide!⟩).codeMask = 17 ∧
    ¬ MostSpecificFirst setupInstVec := by
  refine ⟨by decide!, by decide!, by decide!, by decide!, by decide!, by decide!, ?_⟩
  intro hall
  have h := hall 19 25 (by decide) (by decide!) (by decide!) (by decide!) (by decide!)
  exact absurd h (by decide!)

/-- C8, amended: within every opcode family, whenever row `a` is declared
before row `b` (both non-placeholder, codes with the same low 7 bits), `a.mask`
has at least as many set bits as `b.mask`, unless the pair is one of 19
exceptions: `a` one of `addi, slti, sltiu, xori, ori, andi` and `b` one of
`slli, srli, srai`, or `a` is `fence` and `b` is `fencei`.  In each of these 19
pairs the less specific mask comes first and no word matches both rows; they
are all the inversions of the table. -/
theorem specific_first_except_listed (i j : Nat) (hij : i < j) (hj : j < setupInstVec.length)
    (hpa : (setupInstVec.get ⟨i, Nat.lt_trans hij hj⟩).isPlaceholder = false)
    (hpb : (setupInstVec.get ⟨j, hj⟩).isPlaceholder = false)
    (hfam : (setupInstVec.get ⟨i, Nat.lt_trans hij hj⟩).family
      = (setupInstVec.get ⟨j, hj⟩).family) :
    (popCount (setupInstVec.get ⟨j, hj⟩).codeMask
        ≤ popCount (setupInstVec.get ⟨i, Nat.lt_trans hij hj⟩).codeMask ∨
      ((setupInstVec.get ⟨i, Nat.lt_trans hij hj⟩).instId, (setupInstVec.get ⟨j, hj⟩).instId)
        ∈ orderExceptions) ∧
    (((setupInstVec.get ⟨i, Nat.lt_trans hij hj⟩).instId, (setupInstVec.get ⟨j, hj⟩).instId)
        ∈ orderExceptions →
      popCount (setupInstVec.get ⟨i, Nat.lt_trans hij hj⟩).codeMask
          < popCount (setupInstVec.get ⟨j, hj⟩).codeMask ∧
      ∀ w : Nat, ¬ ((setupInstVec.get ⟨i, Nat.lt_trans hij hj⟩).matchesWord w = true ∧
        (setupInstVec.get ⟨j, hj⟩).matchesWord w = true)) ∧
    (orderInversions setupInstVec = orderExceptions ∧ orderExceptions.length = 19) := by
  have hpair := List.pairwise_iff_getElem.mp family_order_check i j
    (Nat.lt_trans hij hj) hj hij hpa hpb hfam
  refine ⟨hpair.1, ?_, by decide!, by decide⟩
  intro hex
  exact ⟨(hpair.2 hex).1, fun w => no_common_word _ _ (hpair.2 hex).2 w⟩

/-- Witness of the amended C8 in family `0x73`: `ecall` (row 40, all 32 bits
fixed) is declared before `csrrw` (row 42, 10 bits fixed), the order the rule
asks for. -/
theorem specific_first_except_listed_witness :
    (setupInstVec.get ⟨40, by decide!⟩).instId = InstId.ecall ∧
    (setupInstVec.get ⟨42, by decide!⟩).instId = InstId.csrrw ∧
    (popCount (setupInstVec.get ⟨42, by decide!⟩).codeMask
        ≤ popCount (setupInstVec.get ⟨40, by decide!⟩).codeMask ∨
      ((setupInstVec.get ⟨40, by decide!⟩).instId, (setupInstVec.get ⟨42, by decide!⟩).instId)
        ∈ orderExceptions) :=
  ⟨by decide!, by decide!,
    (specific_first_except_listed 40 42 (by decide) (by decide!) (by decide!) (by decide!)
      (by decide!)).1⟩

/-- C10: every catalog row whose mask is 0 also has code 0, is a placeholder,
and satisfies `(w & mask) == code` for every word `w`.  The first such row is
`lwu`, at row 48.  So a first-match scan that does not skip zero-mask rows
resolves every word that none of the 48 rows declared before `lwu` matches to
`lwu`; in particular `0x02000033`, the code of `mul` (declared after `lwu`),
goes to `lwu`, while the scan that skips placeholders resolves it to `mul`. -/
theorem zero_mask_rows_match_every_word :
    (∀ e ∈ setupInstVec, e.codeMask = 0 →
      e.code = 0 ∧ e.isPlaceholder = true ∧ ∀ w : Nat, e.matchesWord w = true) ∧
    ((∀ m ∈ setupInstVec.take 48, m.isPlaceholder = false) ∧
      setupInstVec[48]? = some (InstInfo.new4 "lwu" InstId.lwu 0 0) ∧
      (InstInfo.new4 "lwu" InstId.lwu 0 0).isPlaceholder = true) ∧
    (∀ w : Nat, (∀ m ∈ setupInstVec.take 48, m.matchesWord w = false) →
      firstMatchNoSkip setupInstVec w = some (InstInfo.new4 "lwu" InstId.lwu 0 0)) ∧
    (firstMatchNoSkip setupInstVec 0x02000033 = some (InstInfo.new4 "lwu" InstId.lwu 0 0) ∧
      (firstMatch setupInstVec 0x02000033).map InstInfo.instId = some InstId.mul ∧
      (firstMatch setupInstVec 0x02000033).map InstInfo.code = some 0x02000033) := by
  refine ⟨?_, by decide!, ?_, by decide!⟩
  · intro e he hmask
    have hcode := zero_mask_zero_code e he hmask
    refine ⟨hcode, ?_, ?_⟩
    · unfold InstInfo.isPlaceholder
      rw [hmask, hcode]
      rfl
    · intro w
      unfold InstInfo.matchesWord
      rw [hmask, hcode, Nat.and_zero]
      rfl
  · intro w hw
    have hnone : (setupInstVec.take 48).find? (fun e => e.matchesWord w) = none := by
      rw [List.find?_eq_none]
      intro x hx
      rw [hw x hx]
      decide
    have hlwu : (InstInfo.new4 "lwu" InstId.lwu 0 0).matchesWord w = true := by
      unfold InstInfo.matchesWord
      rw [show (InstInfo.new4 "lwu" InstId.lwu 0 0).codeMask = 0 from rfl,
        show (InstInfo.new4 "lwu" InstId.lwu 0 0).code = 0 from rfl, Nat.and_zero]
      rfl
    unfold firstMatchNoSkip
    rw [setupInstVec_split, List.find?_append, hnone, List.find?_cons, hlwu]
    rfl

/-- Witness of C10: the placeholder `lwu` matches the code of `mul`, which no
row declared before `lwu` matches. -/
theorem zero_mask_rows_match_every_word_witness :
    (InstInfo.new4 "lwu" InstId.lwu 0 0).matchesWord 0x02000033 = true ∧
    (∀ m ∈ setupInstVec.take 48, m.matchesWord 0x02000033 = false) ∧
    firstMatchNoSkip setupInstVec 0x02000033 = some (InstInfo.new4 "lwu" InstId.lwu 0 0) :=
  ⟨(zero_mask_rows_match_every_word.1 (InstInfo.new4 "lwu" InstId.lwu 0 0) (by decide!)
      (by decide!)).2.2 0x02000033,
    by decide!,
    zero_mask_rows_match_every_word.2.2.1 0x02000033 (by decide!)⟩

/-! ## Further auxiliary facts -/

/-- A non-placeholder row that matches a word is what the scan finds. -/
theorem firstMatch_of_matches (e : InstInfo) (he : e ∈ setupInstVec)
    (hp : e.isPlaceholder = false) (w : Nat) (hm : e.matchesWord w = true) :
    firstMatch setupInstVec w = some e := by
  have hmem : e ∈ nonPlaceholders := by
    unfold nonPlaceholders
    rw [List.mem_filter]
    exact ⟨he, by rw [hp]; rfl⟩
  have hdecl : firstMatch setupInstVec w
      = nonPlaceholders.find? (fun e => e.matchesWord w) := rfl
  rw [hdecl]
  cases hf : nonPlaceholders.find? (fun e => e.matchesWord w) with
  | none =>
    rw [List.find?_eq_none] at hf
    exact absurd hm (hf e hmem)
  | some r =>
    have hr := List.mem_of_find?_eq_some hf
    have hrm0 := List.find?_some hf
    have hrm : r.matchesWord w = true := hrm0
    rcases nonPlaceholders_disjoint r hr e hmem with heq | hdis
    · rw [heq]
    · exact absurd ⟨hrm, hm⟩ (no_common_word r e hdis w)

/-- Changing bits of a word inside a field that the code mask does not touch
leaves the match unchanged. -/
theorem matchesWord_field (e : InstInfo) (f : Nat) (hf : f &&& e.codeMask = 0) (w x : Nat) :
    e.matchesWord (w ^^^ (x &&& f)) = e.matchesWord w := by
  have hbits : (w ^^^ (x &&& f)) &&& e.codeMask = w &&& e.codeMask := by
    apply Nat.eq_of_testBit_eq
    intro i
    have hi : (f &&& e.codeMask).testBit i = false := by rw [hf]; exact Nat.zero_testBit i
    rw [Nat.testBit_and] at hi
    simp only [Nat.testBit_and, Nat.testBit_xor]
    cases hw : w.testBit i <;> cases hx : x.testBit i <;> cases hfi : f.testBit i <;>
      cases hm : e.codeMask.testBit i <;> simp_all
  unfold InstInfo.matchesWord
  rw [hbits]

/-- In every row each operand field is disjoint from the code mask and from the
other operand fields. -/
theorem operand_masks_check :
    ∀ e ∈ setupInstVec,
      (e.op0Mask_ &&& e.codeMask = 0 ∧ e.op1Mask_ &&& e.codeMask = 0 ∧
        e.op2Mask_ &&& e.codeMask = 0) ∧
      (e.op0Mask_ &&& e.op1Mask_ = 0 ∧ e.op0Mask_ &&& e.op2Mask_ = 0 ∧
        e.op1Mask_ &&& e.op2Mask_ = 0) := by
  decide!

/-- A sequence of `invalidate` calls leaves the rounding mode as it was. -/
theorem roundingMode_applyMutations (ms : List DecodedInst.Mutation) (d : DecodedInst)
    (h : ∀ m ∈ ms, m = DecodedInst.Mutation.invalidate) :
    (d.applyMutations ms).roundingMode = d.roundingMode := by
  induction ms generalizing d with
  | nil => rfl
  | cons m rest ih =>
    have hm : m = DecodedInst.Mutation.invalidate := h m (List.mem_cons_self _ _)
    have hrest : ∀ m ∈ rest, m = DecodedInst.Mutation.invalidate :=
      fun m2 hm2 => h m2 (List.mem_cons_of_mem _ hm2)
    subst hm
    show ((d.applyMutation DecodedInst.Mutation.invalidate).applyMutations rest).roundingMode
      = d.roundingMode
    rw [ih _ hrest]
    rfl

/-! ## Claims, continued -/

/-- C11: for every `InstInfo` constructed with operand types `t0`, `t1`, `t2`,
the operand count is the number of those types that are not `None`; it is at
most 3; and it is the same whatever the name, id, code, mask, classification,
operand modes and field masks are. -/
theorem operandCount_counts_types (name : String) (id : InstId) (code mask : Nat)
    (type : InstType)
    (t0 : OperandType) (m0 : OperandMode) (k0 : Nat)
    (t1 : OperandType) (m1 : OperandMode) (k1 : Nat)
    (t2 : OperandType) (m2 : OperandMode) (k2 : Nat) :
    (InstInfo.new name id code mask type t0 m0 k0 t1 m1 k1 t2 m2 k2).opCount_
        = [t0, t1, t2].countP (fun t => t ≠ OperandType.None) ∧
    0 ≤ (InstInfo.new name id code mask type t0 m0 k0 t1 m1 k1 t2 m2 k2).opCount_ ∧
    (InstInfo.new name id code mask type t0 m0 k0 t1 m1 k1 t2 m2 k2).opCount_ ≤ 3 ∧
    (∀ (name2 : String) (id2 : InstId) (code2 mask2 : Nat) (type2 : InstType)
        (n0 n1 n2 : OperandMode) (j0 j1 j2 : Nat),
      (InstInfo.new name2 id2 code2 mask2 type2 t0 n0 j0 t1 n1 j1 t2 n2 j2).opCount_
        = (InstInfo.new name id code mask type t0 m0 k0 t1 m1 k1 t2 m2 k2).opCount_) := by
  cases t0 <;> cases t1 <;> cases t2 <;>
    exact ⟨rfl, Nat.zero_le _, Nat.le_of_ble_eq_true rfl, fun _ _ _ _ _ _ _ _ _ _ _ => rfl⟩

/-- C12: `isValid()` holds exactly when the catalog reference is not null: a
default-constructed record is not valid, a record constructed with a non-null
`InstInfo` pointer is valid and one constructed with a null pointer is not,
whatever the other constructor arguments are. -/
theorem isValid_iff_bound :
    DecodedInst.newDefault.isValid = false ∧
    (∀ (addr inst size : Nat) (e : InstInfo) (op0 op1 : Nat) (op2 op3 : Int),
      (DecodedInst.new addr inst size (some e) op0 op1 op2 op3).isValid = true) ∧
    (∀ (addr inst size : Nat) (op0 op1 : Nat) (op2 op3 : Int),
      (DecodedInst.new addr inst size none op0 op1 op2 op3).isValid = false) ∧
    (∀ d : DecodedInst, d.isValid = true ↔ d.instInfo ≠ none) := by
  refine ⟨rfl, fun _ _ _ _ _ _ _ _ => rfl, fun _ _ _ _ _ _ _ => rfl, ?_⟩
  intro d
  unfold DecodedInst.isValid DecodedInst.instInfo
  cases d.info_ <;> simp

/-- C13: for every record, `rd()` is `op0()`, `rs1()` is `op1()`, `imm()` is
`op2()`, and the comparisons `rs2() == op2()`, `rs2() == imm()` and
`rs3() == op3()`, each of a `uint32_t` with an `int32_t` and so made after
converting the signed operand to `uint32_t`, all hold: `rs2()` and `rs3()` are
`op2_` and `op3_` converted to `uint32_t`. -/
theorem operand_aliases (d : DecodedInst) :
    d.rd = d.op0 ∧ d.rs1 = d.op1 ∧
    eqUInt32Int32 d.rs2 d.op2 = true ∧ d.op2 = d.imm ∧ eqUInt32Int32 d.rs2 d.imm = true ∧
    eqUInt32Int32 d.rs3 d.op3 = true ∧
    d.rs2 = toUInt32 d.op2 ∧ d.rs3 = toUInt32 d.op3 := by
  refine ⟨rfl, rfl, ?_, rfl, ?_, ?_, rfl, rfl⟩ <;>
    simp [eqUInt32Int32, DecodedInst.rs2, DecodedInst.rs3, DecodedInst.op2, DecodedInst.op3,
      DecodedInst.imm]

/-- C14: a record built by either constructor has rounding mode `NearestEven`;
after `setRoundingMode(rm)` the rounding mode is `rm` and address, instruction
word, size, catalog reference and `op0..op3` are unchanged; `invalidate()`
leaves the rounding mode unchanged, and so does any sequence of `invalidate()`
calls after a `setRoundingMode(rm)`.  Accessors return values and modify
nothing. -/
theorem roundingMode_persists (d : DecodedInst) (rm : RoundingMode)
    (ms : List DecodedInst.Mutation) (h : ∀ m ∈ ms, m = DecodedInst.Mutation.invalidate) :
    (DecodedInst.newDefault.roundingMode = RoundingMode.NearestEven ∧
      ∀ (addr inst size : Nat) (info : Option InstInfo) (op0 op1 : Nat) (op2 op3 : Int),
        (DecodedInst.new addr inst size info op0 op1 op2 op3).roundingMode
          = RoundingMode.NearestEven) ∧
    ((d.setRoundingMode rm).roundingMode = rm ∧
      (d.setRoundingMode rm).address = d.address ∧
      (d.setRoundingMode rm).inst = d.inst ∧
      (d.setRoundingMode rm).instSize = d.instSize ∧
      (d.setRoundingMode rm).instInfo = d.instInfo ∧
      (d.setRoundingMode rm).op0 = d.op0 ∧
      (d.setRoundingMode rm).op1 = d.op1 ∧
      (d.setRoundingMode rm).op2 = d.op2 ∧
      (d.setRoundingMode rm).op3 = d.op3) ∧
    (d.invalidate.roundingMode = d.roundingMode ∧
      (d.applyMutations ms).roundingMode = d.roundingMode ∧
      ((d.setRoundingMode rm).applyMutations ms).roundingMode = rm) := by
  refine ⟨⟨rfl, fun _ _ _ _ _ _ _ _ => rfl⟩,
    ⟨rfl, rfl, rfl, rfl, rfl, rfl, rfl, rfl, rfl⟩,
    ⟨rfl, roundingMode_applyMutations ms d h, ?_⟩⟩
  rw [roundingMode_applyMutations ms (d.setRoundingMode rm) h]
  rfl

/-- Witness of C14: a default-constructed record set to `Zero` and then
invalidated twice still has rounding mode `Zero`. -/
theorem roundingMode_persists_witness :
    (∀ m ∈ [DecodedInst.Mutation.invalidate, DecodedInst.Mutation.invalidate],
      m = DecodedInst.Mutation.invalidate) ∧
    ((DecodedInst.newDefault.setRoundingMode RoundingMode.Zero).applyMutations
      [DecodedInst.Mutation.invalidate, DecodedInst.Mutation.invalidate]).roundingMode
        = RoundingMode.Zero :=
  ⟨by decide,
    (roundingMode_persists DecodedInst.newDefault RoundingMode.Zero
      [DecodedInst.Mutation.invalidate, DecodedInst.Mutation.invalidate] (by decide)).2.2.2.2⟩

/-- C15: after `d.invalidate()` the catalog reference is null and `isValid()`
is false, while address, instruction word, size, `op0..op3` and the rounding
mode are unchanged; invalidating twice gives the same record as invalidating
once. -/
theorem invalidate_clears_reference (d : DecodedInst) :
    (d.invalidate.instInfo = none ∧ d.invalidate.isValid = false) ∧
    (d.invalidate.address = d.address ∧
      d.invalidate.inst = d.inst ∧
      d.invalidate.instSize = d.instSize ∧
      d.invalidate.op0 = d.op0 ∧
      d.invalidate.op1 = d.op1 ∧
      d.invalidate.op2 = d.op2 ∧
      d.invalidate.op3 = d.op3 ∧
      d.invalidate.roundingMode = d.roundingMode) ∧
    d.invalidate.invalidate = d.invalidate :=
  ⟨⟨rfl, rfl⟩, ⟨rfl, rfl, rfl, rfl, rfl, rfl, rfl, rfl⟩, rfl⟩

/-- C16: the `replay` command issued while no replay file is bound returns
failure and reports an error; the session stays Idle, the `done` flag and the
current hart id keep their values (an unset flag stays unset), and the hart
handles and the reset policy flag are unchanged. -/
theorem replay_while_idle {Hart : Type}
    (replayBound : Session Hart → List String → List String → Bool × Session Hart)
    (s : Session Hart) (tokens : List String) (h : s.isIdle = true) :
    (replayCommand replayBound s tokens).1 = false ∧
    (replayCommand replayBound s tokens).2.reported.length = s.reported.length + 1 ∧
    (replayCommand replayBound s tokens).2.isIdle = true ∧
    (replayCommand replayBound s tokens).2.done = s.done ∧
    (s.done = false → (replayCommand replayBound s tokens).2.done = false) ∧
    (replayCommand replayBound s tokens).2.currentHartId = s.currentHartId ∧
    (replayCommand replayBound s tokens).2.hartHandles = s.hartHandles ∧
    (replayCommand replayBound s tokens).2.resetMemoryMappedRegsOnReset
      = s.resetMemoryMappedRegsOnReset := by
  have hb : s.replayBinding = none := by
    unfold Session.isIdle at h
    cases hs : s.replayBinding with
    | none => rfl
    | some l => rw [hs] at h; exact absurd h (by simp)
  unfold replayCommand
  rw [hb]
  refine ⟨rfl, ?_, ?_, rfl, fun hd => hd, rfl, rfl, rfl⟩
  · simp
  · unfold Session.isIdle
    simp [hb]

/-- Witness of C16: an Idle session with two harts, hart 1 selected, and the
command `replay 3`. -/
theorem replay_while_idle_witness :
    (Session.mk [10, 20] 1 false none false []).isIdle = true ∧
    (replayCommand (fun s _ _ => (true, s)) (Session.mk [10, 20] 1 false none false [])
      ["replay", "3"]).1 = false ∧
    (replayCommand (fun s _ _ => (true, s)) (Session.mk [10, 20] 1 false none false [])
      ["replay", "3"]).2.hartHandles = [10, 20] :=
  ⟨rfl,
    (replay_while_idle (fun s _ _ => (true, s)) (Session.mk [10, 20] 1 false none false [])
      ["replay", "3"] rfl).1,
    (replay_while_idle (fun s _ _ => (true, s)) (Session.mk [10, 20] 1 false none false [])
      ["replay", "3"] rfl).2.2.2.2.2.2.1⟩

/-- C17: decoding over the catalog is unambiguous: no word matches two
different non-placeholder rows, and so whenever a non-placeholder row matches
a word, the first-match scan resolves the word to that row. -/
theorem decoding_unambiguous :
    (∀ a ∈ setupInstVec, ∀ b ∈ setupInstVec,
      a.isPlaceholder = false → b.isPlaceholder = false → a ≠ b →
        ∀ w : Nat, ¬ (a.matchesWord w = true ∧ b.matchesWord w = true)) ∧
    (∀ e ∈ setupInstVec, e.isPlaceholder = false →
      ∀ w : Nat, e.matchesWord w = true → firstMatch setupInstVec w = some e) := by
  refine ⟨?_, firstMatch_of_matches⟩
  intro a ha b hb hpa hpb hne w
  have hma : a ∈ nonPlaceholders := by
    unfold nonPlaceholders
    rw [List.mem_filter]
    exact ⟨ha, by rw [hpa]; rfl⟩
  have hmb : b ∈ nonPlaceholders := by
    unfold nonPlaceholders
    rw [List.mem_filter]
    exact ⟨hb, by rw [hpb]; rfl⟩
  rcases nonPlaceholders_disjoint a hma b hmb with heq | hdis
  · exact absurd heq hne
  · exact no_common_word a b hdis w

/-- Witness of C17: `add` (row 28) and `sub` (row 29) match no common word,
and the word `0x00B50533` (`add x10, x10, x11`), which `add` matches, resolves
to `add`. -/
theorem decoding_unambiguous_witness :
    (∀ w : Nat, ¬ ((setupInstVec.get ⟨28, by decide!⟩).matchesWord w = true ∧
      (setupInstVec.get ⟨29, by decide!⟩).matchesWord w = true)) ∧
    (setupInstVec.get ⟨28, by decide!⟩).matchesWord 0x00B50533 = true ∧
    firstMatch setupInstVec 0x00B50533 = some (setupInstVec.get ⟨28, by decide!⟩) :=
  ⟨decoding_unambiguous.1 (setupInstVec.get ⟨28, by decide!⟩) (by decide!)
      (setupInstVec.get ⟨29, by decide!⟩) (by decide!) (by decide!) (by decide!) (by decide!),
    by decide!,
    decoding_unambiguous.2 (setupInstVec.get ⟨28, by decide!⟩) (by decide!) (by decide!)
      0x00B50533 (by decide!)⟩

/-- C18, on the code: `immTop20`, computed as `0xffff << 12`, is `0x0FFFF000`,
the 16 bits 27..12, not `0xFFFFF000`; with the rd mask and the opcode mask it
covers `0x0FFFFFFF`, leaving bits 31..28 out.  It is the immediate field of
`lui`, `auipc` and `jal`, and the field extracted from the `lui` word
`0xFFFFF037` is `0xFFFF`, not `0xFFFFF`. -/
theorem immTop20_is_sixteen_bits :
    immTop20 = 0x0FFFF000 ∧ immTop20 ≠ 0xFFFFF000 ∧ popCount immTop20 = 16 ∧
    (immTop20 ||| rdMask ||| low7Mask) = 0x0FFFFFFF ∧
    (immTop20 ||| rdMask ||| low7Mask) ≠ 0xFFFFFFFF ∧
    ((setupInstVec.find? (fun e => e.instId = InstId.lui)).map (fun e => e.op1Mask_)
        = some immTop20 ∧
      (setupInstVec.find? (fun e => e.instId = InstId.auipc)).map (fun e => e.op1Mask_)
        = some immTop20 ∧
      (setupInstVec.find? (fun e => e.instId = InstId.jal)).map (fun e => e.op1Mask_)
        = some immTop20) ∧
    ((decode setupInstVec 0 0xFFFFF037 4).instInfo.map InstInfo.instId = some InstId.lui ∧
      (0xFFFFF037 &&& immTop20) >>> 12 = 0xFFFF ∧
      operandValue 0xFFFFF037 OperandType.Imm immTop20 = 0xFFFF ∧
      (decode setupInstVec 0 0xFFFFF037 4).op1 = 0xFFFF) := by
  decide!

/-- C19, on the code: the row `sra` has code `0x40001033`, which is the code of
`sll` with bit 30 set, not the code of `srl` (`0x5033`) with bit 30 set, though
`sub` is `add` with bit 30 set and `srai` is `srli` with bit 30 set.  So no row
matches `0x40005033` and the word resolves to `illegal`, while `0x40001033`
resolves to `sra`. -/
theorem sra_code_is_sll_with_bit30 :
    ((setupInstVec.find? (fun e => e.instId = InstId.srl)).map InstInfo.code = some 0x5033 ∧
      (setupInstVec.find? (fun e => e.instId = InstId.sll)).map InstInfo.code = some 0x1033 ∧
      (setupInstVec.find? (fun e => e.instId = InstId.sra)).map InstInfo.code
        = some 0x40001033 ∧
      (setupInstVec.find? (fun e => e.instId = InstId.sra)).map InstInfo.codeMask
        = (setupInstVec.find? (fun e => e.instId = InstId.srl)).map InstInfo.codeMask) ∧
    ((setupInstVec.find? (fun e => e.instId = InstId.sra)).map InstInfo.code
        ≠ (setupInstVec.find? (fun e => e.instId = InstId.srl)).map
            (fun e => e.code ||| 0x40000000) ∧
      (setupInstVec.find? (fun e => e.instId = InstId.sra)).map InstInfo.code
        = (setupInstVec.find? (fun e => e.instId = InstId.sll)).map
            (fun e => e.code ||| 0x40000000)) ∧
    ((setupInstVec.find? (fun e => e.instId = InstId.sub)).map InstInfo.code
        = (setupInstVec.find? (fun e => e.instId = InstId.add)).map
            (fun e => e.code ||| 0x40000000) ∧
      (setupInstVec.find? (fun e => e.instId = InstId.srai)).map InstInfo.code
        = (setupInstVec.find? (fun e => e.instId = InstId.srli)).map
            (fun e => e.code ||| 0x40000000)) ∧
    (firstMatch setupInstVec 0x40005033 = none ∧
      (decodeInfo setupInstVec 0x40005033).map InstInfo.instId = some InstId.illegal ∧
      (firstMatch setupInstVec 0x40001033).map InstInfo.instId = some InstId.sra) := by
  decide!

/-- C20: in every catalog row each operand whose type is not `None` has a field
mask disjoint from the row's code mask, so changing the bits of a word inside
an operand field never changes whether the row matches; and the field masks of
the row's operands are pairwise disjoint. -/
theorem operand_fields_disjoint (e : InstInfo) (he : e ∈ setupInstVec) :
    ((e.op0Type_ ≠ OperandType.None → e.op0Mask_ &&& e.codeMask = 0) ∧
      (e.op1Type_ ≠ OperandType.None → e.op1Mask_ &&& e.codeMask = 0) ∧
      (e.op2Type_ ≠ OperandType.None → e.op2Mask_ &&& e.codeMask = 0)) ∧
    (∀ w x : Nat,
      e.matchesWord (w ^^^ (x &&& e.op0Mask_)) = e.matchesWord w ∧
      e.matchesWord (w ^^^ (x &&& e.op1Mask_)) = e.matchesWord w ∧
      e.matchesWord (w ^^^ (x &&& e.op2Mask_)) = e.matchesWord w) ∧
    (e.op0Mask_ &&& e.op1Mask_ = 0 ∧ e.op0Mask_ &&& e.op2Mask_ = 0 ∧
      e.op1Mask_ &&& e.op2Mask_ = 0) := by
  have hchk := operand_masks_check e he
  refine ⟨⟨fun _ => hchk.1.1, fun _ => hchk.1.2.1, fun _ => hchk.1.2.2⟩, ?_, hchk.2⟩
  intro w x
  exact ⟨matchesWord_field e _ hchk.1.1 w x, matchesWord_field e _ hchk.1.2.1 w x,
    matchesWord_field e _ hchk.1.2.2 w x⟩

/-- Witness of C20 at the row `beq` (row 5), whose three operands are rs1, rs2
and the split branch immediate. -/
theorem operand_fields_disjoint_witness :
    (setupInstVec.get ⟨5, by decide!⟩).instId = InstId.beq ∧
    setupInstVec.get ⟨5, by decide!⟩ ∈ setupInstVec ∧
    ((setupInstVec.get ⟨5, by decide!⟩).op0Mask_
        &&& (setupInstVec.get ⟨5, by decide!⟩).op1Mask_ = 0 ∧
      (setupInstVec.get ⟨5, by decide!⟩).op0Mask_
        &&& (setupInstVec.get ⟨5, by decide!⟩).op2Mask_ = 0 ∧
      (setupInstVec.get ⟨5, by decide!⟩).op1Mask_
        &&& (setupInstVec.get ⟨5, by decide!⟩).op2Mask_ = 0) :=
  ⟨by decide!, by decide!,
    (operand_fields_disjoint (setupInstVec.get ⟨5, by decide!⟩) (by decide!)).2.2⟩

/-! ## Claims on operand descriptors, classification and decoded records -/

/-- In every row the operand descriptors in use are the leading slots, and
their number is the operand count. -/
theorem descriptor_leading_slots_check :
    ∀ e ∈ setupInstVec,
      ((e.op0Type_ = OperandType.None → e.op1Type_ = OperandType.None) ∧
        (e.op1Type_ = OperandType.None → e.op2Type_ = OperandType.None)) ∧
      ((e.op0Type_ ≠ OperandType.None ↔ 0 < e.opCount_) ∧
        (e.op1Type_ ≠ OperandType.None ↔ 1 < e.opCount_) ∧
        (e.op2Type_ ≠ OperandType.None ↔ 2 < e.opCount_)) := by
  decide!

/-- The classification of every row by opcode family and id. -/
theorem classification_check :
    ∀ e ∈ setupInstVec,
      (e.family = 0x03 → e.type_ = InstType.Load) ∧
      (e.family = 0x23 → e.type_ = InstType.Store) ∧
      (e.family = 0x63 ∨ e.family = 0x67 ∨ e.family = 0x6f → e.type_ = InstType.Branch) ∧
      (e.instId ∈ multiplyIds → e.type_ = InstType.Multiply) ∧
      (e.instId ∈ divideIds → e.type_ = InstType.Divide) ∧
      (¬ (e.family = 0x03 ∨ e.family = 0x23 ∨ e.family = 0x63 ∨ e.family = 0x67 ∨
          e.family = 0x6f ∨ e.instId ∈ multiplyIds ∨ e.instId ∈ divideIds) →
        e.type_ = InstType.Int) := by
  decide!

/-- C21, on the code: the second operand of `jal` is typed `IntReg` with mode
`None` and field mask `immTop20`, while `lui` and `auipc` type the same field
`Imm` with mode `None`; `jal` is the one row of the catalog in which operand
type and mode do not agree. -/
theorem jal_operand_is_register_without_mode :
    ((setupInstVec.find? (fun e => e.instId = InstId.jal)).map
        (fun e => (e.op1Type_, e.op1Mode_, e.op1Mask_))
        = some (OperandType.IntReg, OperandMode.None, immTop20) ∧
      (setupInstVec.find? (fun e => e.instId = InstId.lui)).map
        (fun e => (e.op1Type_, e.op1Mode_, e.op1Mask_))
        = some (OperandType.Imm, OperandMode.None, immTop20) ∧
      (setupInstVec.find? (fun e => e.instId = InstId.auipc)).map
        (fun e => (e.op1Type_, e.op1Mode_, e.op1Mask_))
        = some (OperandType.Imm, OperandMode.None, immTop20)) ∧
    (setupInstVec.find? (fun e => e.instId = InstId.jal)).map InstInfo.typeModeAgree
      = some false ∧
    (setupInstVec.filter (fun e => !e.typeModeAgree)).map InstInfo.instId = [InstId.jal] := by
  decide!

/-- C22: in every catalog row the operand descriptors in use form a prefix of
the three slots: a slot of type `None` is followed only by slots of type
`None`, and slot `i` is in use exactly when `i` is below the operand count. -/
theorem operands_fill_leading_slots (e : InstInfo) (he : e ∈ setupInstVec) :
    ((e.op0Type_ = OperandType.None →
        e.op1Type_ = OperandType.None ∧ e.op2Type_ = OperandType.None) ∧
      (e.op1Type_ = OperandType.None → e.op2Type_ = OperandType.None)) ∧
    ((e.op0Type_ ≠ OperandType.None ↔ 0 < e.opCount_) ∧
      (e.op1Type_ ≠ OperandType.None ↔ 1 < e.opCount_) ∧
      (e.op2Type_ ≠ OperandType.None ↔ 2 < e.opCount_)) := by
  have h := descriptor_leading_slots_check e he
  exact ⟨⟨fun h0 => ⟨h.1.1 h0, h.1.2 (h.1.1 h0)⟩, h.1.2⟩, h.2⟩

/-- Witness of C22 at the row `lui` (row 1): two operands, the third slot
unused. -/
theorem operands_fill_leading_slots_witness :
    (setupInstVec.get ⟨1, by decide!⟩).instId = InstId.lui ∧
    (setupInstVec.get ⟨1, by decide!⟩).opCount_ = 2 ∧
    ((setupInstVec.get ⟨1, by decide!⟩).op2Type_ ≠ OperandType.None
      ↔ 2 < (setupInstVec.get ⟨1, by decide!⟩).opCount_) :=
  ⟨by decide!, by decide!,
    (operands_fill_leading_slots (setupInstVec.get ⟨1, by decide!⟩) (by decide!)).2.2.2⟩

/-- C23: the classification of a catalog row follows its opcode family: the
rows whose code has low 7 bits `0x03` are `lb, lh, lw, lbu, lhu` and have type
`Load`; `0x23`, `sb, sh, sw`, type `Store`; `0x63`, `0x67` or `0x6f`,
`beq..bgeu, jalr, jal`, type `Branch`; `mul, mulh, mulhsu, mulhu` have type
`Multiply` and `div, divu, rem, remu` type `Divide`; every other row, and so
every other row written with an explicit type, has type `Int`. -/
theorem type_follows_family (e : InstInfo) (he : e ∈ setupInstVec) :
    ((e.family = 0x03 → e.type_ = InstType.Load) ∧
      (e.family = 0x23 → e.type_ = InstType.Store) ∧
      (e.family = 0x63 ∨ e.family = 0x67 ∨ e.family = 0x6f → e.type_ = InstType.Branch) ∧
      (e.instId ∈ multiplyIds → e.type_ = InstType.Multiply) ∧
      (e.instId ∈ divideIds → e.type_ = InstType.Divide)) ∧
    ((e.family ≠ 0x03 → e.family ≠ 0x23 → e.family ≠ 0x63 → e.family ≠ 0x67 →
        e.family ≠ 0x6f → e.instId ∉ multiplyIds → e.instId ∉ divideIds →
        e.type_ = InstType.Int) ∧
      (e.hasExplicitType = true →
        e.family ≠ 0x03 → e.family ≠ 0x23 → e.family ≠ 0x63 → e.family ≠ 0x67 →
        e.family ≠ 0x6f → e.instId ∉ multiplyIds → e.instId ∉ divideIds →
        e.type_ = InstType.Int)) ∧
    ((setupInstVec.filter (fun r => r.family = 0x03)).map InstInfo.instId
        = [InstId.lb, InstId.lh, InstId.lw, InstId.lbu, InstId.lhu] ∧
      (setupInstVec.filter (fun r => r.family = 0x23)).map InstInfo.instId
        = [InstId.sb, InstId.sh, InstId.sw] ∧
      (setupInstVec.filter
          (fun r => r.family = 0x63 || r.family = 0x67 || r.family = 0x6f)).map InstInfo.instId
        = [InstId.jal, InstId.jalr, InstId.beq, InstId.bne, InstId.blt, InstId.bge,
            InstId.bltu, InstId.bgeu]) := by
  have h := classification_check e he
  have hint : e.family ≠ 0x03 → e.family ≠ 0x23 → e.family ≠ 0x63 → e.family ≠ 0x67 →
      e.family ≠ 0x6f → e.instId ∉ multiplyIds → e.instId ∉ divideIds →
      e.type_ = InstType.Int := by
    intro h1 h2 h3 h4 h5 h6 h7
    apply h.2.2.2.2.2
    rintro (h0 | h0 | h0 | h0 | h0 | h0 | h0)
    · exact h1 h0
    · exact h2 h0
    · exact h3 h0
    · exact h4 h0
    · exact h5 h0
    · exact h6 h0
    · exact h7 h0
  refine ⟨⟨h.1, h.2.1, h.2.2.1, h.2.2.2.1, h.2.2.2.2.1⟩, ⟨hint, fun _ => hint⟩, ?_⟩
  decide!

/-- Witness of C23 at the row `lb` (row 11), of family `0x03` and type
`Load`, and at the row `add` (row 28), written with an explicit type, of type
`Int`. -/
theorem type_follows_family_witness :
    ((setupInstVec.get ⟨11, by decide!⟩).instId = InstId.lb ∧
      (setupInstVec.get ⟨11, by decide!⟩).family = 0x03 ∧
      (setupInstVec.get ⟨11, by decide!⟩).type_ = InstType.Load) ∧
    ((setupInstVec.get ⟨28, by decide!⟩).hasExplicitType = true ∧
      (setupInstVec.get ⟨28, by decide!⟩).type_ = InstType.Int) :=
  ⟨⟨by decide!, by decide!,
      (type_follows_family (setupInstVec.get ⟨11, by decide!⟩) (by decide!)).1.1 (by decide!)⟩,
    ⟨by decide!,
      (type_follows_family (setupInstVec.get ⟨28, by decide!⟩) (by decide!)).2.1.2 (by decide!)
        (by decide!) (by decide!) (by decide!) (by decide!) (by decide!) (by decide!)
        (by decide!)⟩⟩

/-- C24: construction and accessors round-trip: the record built from `addr`,
`inst`, `size`, `info`, `op0`, `op1`, `op2`, `op3` returns each of them from
the accessor of the same name, and a default-constructed record returns 0 from
each and a null catalog reference. -/
theorem constructor_accessor_roundtrip (addr inst size : Nat) (info : Option InstInfo)
    (op0 op1 : Nat) (op2 op3 : Int) :
    ((DecodedInst.new addr inst size info op0 op1 op2 op3).address = addr ∧
      (DecodedInst.new addr inst size info op0 op1 op2 op3).inst = inst ∧
      (DecodedInst.new addr inst size info op0 op1 op2 op3).instSize = size ∧
      (DecodedInst.new addr inst size info op0 op1 op2 op3).instInfo = info ∧
      (DecodedInst.new addr inst size info op0 op1 op2 op3).op0 = op0 ∧
      (DecodedInst.new addr inst size info op0 op1 op2 op3).op1 = op1 ∧
      (DecodedInst.new addr inst size info op0 op1 op2 op3).op2 = op2 ∧
      (DecodedInst.new addr inst size info op0 op1 op2 op3).op3 = op3) ∧
    (DecodedInst.newDefault.address = 0 ∧
      DecodedInst.newDefault.inst = 0 ∧
      DecodedInst.newDefault.instSize = 0 ∧
      DecodedInst.newDefault.instInfo = none ∧
      DecodedInst.newDefault.op0 = 0 ∧
      DecodedInst.newDefault.op1 = 0 ∧
      DecodedInst.newDefault.op2 = 0 ∧
      DecodedInst.newDefault.op3 = 0) :=
  ⟨⟨rfl, rfl, rfl, rfl, rfl, rfl, rfl, rfl⟩, ⟨rfl, rfl, rfl, rfl, rfl, rfl, rfl, rfl⟩⟩

/-- C25: for a record whose third and fourth operands are the signed 32-bit
values `x` and `y`, `imm()` is `x` and `op3()` is `y`, while `rs2()` is
`x mod 2^32` and `rs3()` is `y mod 2^32`; so `rs2()` and `imm()` are the same
integer exactly when `x` is not negative. -/
theorem signed_and_unsigned_views (addr inst size : Nat) (info : Option InstInfo)
    (op0 op1 : Nat) (x y : Int)
    (hx : -2147483648 ≤ x ∧ x < 2147483648) (hy : -2147483648 ≤ y ∧ y < 2147483648) :
    ((DecodedInst.new addr inst size info op0 op1 x y).imm = x ∧
      (DecodedInst.new addr inst size info op0 op1 x y).op2 = x ∧
      (DecodedInst.new addr inst size info op0 op1 x y).op3 = y) ∧
    (((DecodedInst.new addr inst size info op0 op1 x y).rs2 : Int) = x % 4294967296 ∧
      ((DecodedInst.new addr inst size info op0 op1 x y).rs3 : Int) = y % 4294967296) ∧
    ((((DecodedInst.new addr inst size info op0 op1 x y).rs2 : Int)
        = (DecodedInst.new addr inst size info op0 op1 x y).imm ↔ 0 ≤ x) ∧
      (((DecodedInst.new addr inst size info op0 op1 x y).rs3 : Int)
        = (DecodedInst.new addr inst size info op0 op1 x y).op3 ↔ 0 ≤ y)) := by
  have hrs2 : ((DecodedInst.new addr inst size info op0 op1 x y).rs2 : Int)
      = x % 4294967296 := by
    show ((toUInt32 x : Nat) : Int) = x % 4294967296
    unfold toUInt32
    exact Int.toNat_of_nonneg (Int.emod_nonneg x (by decide))
  have hrs3 : ((DecodedInst.new addr inst size info op0 op1 x y).rs3 : Int)
      = y % 4294967296 := by
    show ((toUInt32 y : Nat) : Int) = y % 4294967296
    unfold toUInt32
    exact Int.toNat_of_nonneg (Int.emod_nonneg y (by decide))
  refine ⟨⟨rfl, rfl, rfl⟩, ⟨hrs2, hrs3⟩, ?_, ?_⟩
  · rw [hrs2]
    show x % 4294967296 = x ↔ 0 ≤ x
    omega
  · rw [hrs3]
    show y % 4294967296 = y ↔ 0 ≤ y
    omega

/-- Witness of C25 at `x = -1`, `y = 5`: `imm()` is -1 and `rs2()` is
4294967295. -/
theorem signed_and_unsigned_views_witness :
    ((-2147483648 : Int) ≤ -1 ∧ (-1 : Int) < 2147483648) ∧
    (DecodedInst.new 0 0 4 none 0 0 (-1) 5).imm = -1 ∧
    (DecodedInst.new 0 0 4 none 0 0 (-1) 5).rs2 = 4294967295 ∧
    (((DecodedInst.new 0 0 4 none 0 0 (-1) 5).rs2 : Int)
      = (DecodedInst.new 0 0 4 none 0 0 (-1) 5).imm ↔ (0 : Int) ≤ -1) :=
  ⟨by decide, by decide, by decide,
    (signed_and_unsigned_views 0 0 4 none 0 0 (-1) 5 (by decide) (by decide)).2.2.1⟩

end WdRiscv
